import Mathlib

/-!
Verification development for the paperless-scanner repository.

The TypeScript sources are shallowly embedded as pure Lean functions:

* `ScannerManager` (src/scanner-manager.ts): the scanner cache
  (`getCachedScanner`, `markSuccessfulScan`) and device detection
  (`detectScanners`).  The outcome of the external `scanimage -L`
  invocation is passed in as an `Except String (String × String)`
  (error message, or stdout/stderr pair); wall-clock time is an
  explicit `Int` parameter (milliseconds).  The regex that parses one
  device line is abstracted as a `String → Option ScannerInfo`
  parameter; the surrounding control flow (the case-insensitive
  "device" substring test, the failure classes and cache fallbacks) is
  translated directly.
* `scanPage` (src/index.ts): the scan executor.  Outcomes of the
  external capture command and the state of the temp file it leaves
  behind are environment inputs; the checks, cleanups, atomic rename,
  fix-and-retry control flow and the duplex batch collection are
  translated directly.
* `DocumentSessionManager` (src/document-session.ts): sessions, pages,
  load/get/add/remove/reorder/combine.  The filesystem is a single
  scan-output directory modelled as a `List FileEntry`; file paths are
  identified with file names inside that directory.  `generateId`
  (clock+randomness in the source) is modelled as an injective
  function of a fresh counter threaded through the state: only the
  freshness/uniqueness of generated ids is relevant.  JavaScript
  object aliasing matters in `reorderPages`/`removePageFromSession`
  (the renumbering `forEach` mutates shared `PageInfo` objects, so a
  page picked twice ends up with the number of its last occurrence);
  this is modelled by `aliasRenumber`, which assigns every occurrence
  of a page id the number of the last occurrence of that id.
* pdf-lib / img2pdf (external libraries): a file's PDF content is
  abstracted as `pdfContent : Option Nat` (number of content pages,
  `none` = unloadable); `PDFDocument.save` on a document with zero
  pages succeeds and produces a non-empty file, as pdf-lib does.
-/

/-- Substring test: JavaScript `String.prototype.includes`. -/
def strContainsAux (pat : List Char) : List Char → Bool
  | [] => pat.isEmpty
  | c :: t => List.isPrefixOf pat (c :: t) || strContainsAux pat t

/-- JavaScript `s.includes(pat)`. -/
def strContains (s pat : String) : Bool :=
  strContainsAux pat.toList s.toList

/-- JavaScript `s.startsWith(p)`. -/
def strStartsWith (s p : String) : Bool :=
  List.isPrefixOf p.toList s.toList

/-- JavaScript `s.endsWith(p)`. -/
def strEndsWith (s p : String) : Bool :=
  List.isSuffixOf p.toList s.toList

/-- True iff the string trims to the empty string
(JavaScript `s.trim() === ""`, also covering falsy `!s`). -/
def strBlank (s : String) : Bool :=
  s.toList.all Char.isWhitespace

/-- JavaScript `s.toLowerCase()` (ASCII case folding; device lines are
ASCII). -/
def lowerStr (s : String) : String :=
  String.mk (s.toList.map Char.toLower)

/-- JavaScript `s.split("\n")`. -/
def splitNlAux : List Char → List Char → List String
  | cur, [] => [String.mk cur.reverse]
  | cur, c :: rest =>
    if c = '\n' then String.mk cur.reverse :: splitNlAux [] rest
    else splitNlAux (c :: cur) rest

/-- Split a string into lines at every newline character. -/
def splitLines (s : String) : List String :=
  splitNlAux [] s.toList

/-- JavaScript `parts.join(sep)`. -/
def joinSep (sep : String) : List String → String
  | [] => ""
  | [s] => s
  | s :: rest => s ++ sep ++ joinSep sep rest

/-- A file in the scan output directory: name, size in bytes,
modification time (ms), and abstracted PDF content (`some n` = loads
as a document with `n` content pages, `none` = `PDFDocument.load`
fails on it).  Only the PDF combine path looks at `pdfContent`. -/
structure FileEntry where
  name : String
  size : Nat
  mtime : Int
  pdfContent : Option Nat
deriving Repr, DecidableEq

/-- Look a file up by name (`fs.existsSync` / `fs.statSync`). -/
def findFile (dir : List FileEntry) (n : String) : Option FileEntry :=
  dir.find? (fun f => f.name == n)

/-- Insert into a list sorted by an integer key, keeping equal keys in
order (JavaScript `Array.prototype.sort` is stable). -/
def insSorted {α : Type} (key : α → Int) (a : α) : List α → List α
  | [] => [a]
  | b :: l => if key a ≤ key b then a :: b :: l else b :: insSorted key a l

/-- Stable sort by an integer key, modelling the JavaScript stable
comparator sorts in the sources. -/
def sortByKey {α : Type} (key : α → Int) : List α → List α
  | [] => []
  | a :: l => insSorted key a (sortByKey key l)

theorem insSorted_perm {α : Type} (key : α → Int) (a : α) (l : List α) :
    List.Perm (insSorted key a l) (a :: l) := by
  induction l with
  | nil => simp [insSorted]
  | cons b t ih =>
    simp only [insSorted]
    by_cases hab : key a ≤ key b
    · rw [if_pos hab]
    · rw [if_neg hab]
      exact (List.Perm.cons b ih).trans (List.Perm.swap a b t)

theorem sortByKey_perm {α : Type} (key : α → Int) (l : List α) :
    List.Perm (sortByKey key l) l := by
  induction l with
  | nil => simp [sortByKey]
  | cons a t ih =>
    exact (insSorted_perm key a (sortByKey key t)).trans (List.Perm.cons a ih)

theorem insSorted_pairwise {α : Type} (key : α → Int) (a : α) (l : List α)
    (h : List.Pairwise (fun x y => key x ≤ key y) l) :
    List.Pairwise (fun x y => key x ≤ key y) (insSorted key a l) := by
  induction l with
  | nil => simp [insSorted]
  | cons b t ih =>
    rcases List.pairwise_cons.mp h with ⟨hb, ht⟩
    simp only [insSorted]
    by_cases hab : key a ≤ key b
    · rw [if_pos hab]
      refine List.pairwise_cons.mpr ⟨?_, h⟩
      intro x hx
      rcases List.mem_cons.mp hx with rfl | hx'
      · exact hab
      · exact le_trans hab (hb x hx')
    · rw [if_neg hab]
      refine List.pairwise_cons.mpr ⟨?_, ih ht⟩
      intro x hx
      rcases List.mem_cons.mp ((insSorted_perm key a t).mem_iff.mp hx)
        with rfl | hx'
      · omega
      · exact hb x hx'

theorem sortByKey_pairwise {α : Type} (key : α → Int) (l : List α) :
    List.Pairwise (fun x y => key x ≤ key y) (sortByKey key l) := by
  induction l with
  | nil => simp [sortByKey]
  | cons a t ih => exact insSorted_pairwise key a (sortByKey key t) ih

/-! ## ScannerManager (src/scanner-manager.ts) -/

/-- Parsed scanner descriptor (`ScannerInfo` in the source). -/
structure ScannerInfo where
  device : String
  vendor : String
  model : String
  kind : String
  available : Bool
deriving Repr, DecidableEq

/-- Mutable fields of `ScannerManager`: the cached descriptor and the
timestamp of the last successful scan. -/
structure ScannerState where
  cachedScanner : Option ScannerInfo
  lastSuccessfulScan : Option Int
deriving Repr, DecidableEq

/-- One hour in milliseconds. -/
def hourMs : Int := 60 * 60 * 1000

/-- `ScannerManager.getCachedScanner`: returns the cached scanner only
if a scan succeeded strictly less than one hour before `now`
(`this.lastSuccessfulScan > hourAgo` in the source). -/
def getCachedScanner (st : ScannerState) (now : Int) : Option ScannerInfo :=
  match st.cachedScanner, st.lastSuccessfulScan with
  | some sc, some t => if now - hourMs < t then some sc else none
  | _, _ => none

/-- `ScannerManager.markSuccessfulScan`: cache the scanner and reset
the freshness timer to `now`. -/
def markSuccessfulScan (_st : ScannerState) (sc : ScannerInfo) (now : Int) :
    ScannerState :=
  { cachedScanner := some sc, lastSuccessfulScan := some now }

theorem getCachedScanner_mark (st : ScannerState) (sc : ScannerInfo)
    (T now : Int) :
    getCachedScanner (markSuccessfulScan st sc T) now =
      if now - T < hourMs then some sc else none := by
  simp only [getCachedScanner, markSuccessfulScan]
  by_cases h : now - hourMs < T
  · rw [if_pos h, if_pos (by omega)]
  · rw [if_neg h, if_neg (by omega)]

theorem cachedScanner_iff (st : ScannerState) (sc : ScannerInfo)
    (now : Int) :
    getCachedScanner st now = some sc ↔
      st.cachedScanner = some sc ∧
      ∃ t, st.lastSuccessfulScan = some t ∧ now - t < hourMs := by
  unfold getCachedScanner
  rcases hc : st.cachedScanner with _ | c <;>
    rcases hl : st.lastSuccessfulScan with _ | t
  · simp
  · simp
  · simp
  · dsimp only
    by_cases hlt : now - hourMs < t
    · rw [if_pos hlt]
      simp only [Option.some.injEq]
      constructor
      · intro h
        exact ⟨by rw [h], t, rfl, by omega⟩
      · rintro ⟨h, -⟩
        exact Option.some.injEq c sc ▸ h
    · rw [if_neg hlt]
      constructor
      · intro h
        simp at h
      · rintro ⟨h, t', ht', hlt'⟩
        rcases Option.some.injEq t t' |>.mp ht' with rfl
        omega

/-- C8: `getCachedScanner` returns the cached descriptor iff one is
cached and its last-successful-scan timestamp lies strictly less than
one hour in the past; a descriptor marked successful at time `T` is
trusted before `T + 1h` and rejected from `T + 1h` on. -/
theorem c8_cache_freshness (st : ScannerState) (sc : ScannerInfo)
    (T now : Int) :
    (getCachedScanner (markSuccessfulScan st sc T) now =
        if now - T < hourMs then some sc else none) ∧
    (getCachedScanner st now = some sc ↔
        st.cachedScanner = some sc ∧
        ∃ t, st.lastSuccessfulScan = some t ∧ now - t < hourMs) :=
  ⟨getCachedScanner_mark st sc T now, cachedScanner_iff st sc now⟩

/-- Result of `ScannerManager.detectScanners`. -/
structure DetectResult where
  scanners : List ScannerInfo
  error : Option String
deriving Repr, DecidableEq

/-- The explicit no-scanners message searched for in stdout/stderr. -/
def noScannersMsg : String := "No scanners were identified"

/-- Line filter `line => line.trim()` (keep lines with non-blank
content). -/
def trimNonempty (l : String) : Bool := !strBlank l

/-- Case-insensitive test `line.toLowerCase().includes("device")`. -/
def deviceLine (l : String) : Bool := strContains (lowerStr l) "device"

/-- The per-line parse loop: only lines mentioning a device token are
handed to the device-line pattern match, which is abstracted as the
`parse` parameter (the regex at scanner-manager.ts lines 118-155). -/
def parseScanners (parse : String → Option ScannerInfo)
    (lines : List String) : List ScannerInfo :=
  lines.filterMap (fun l => if deviceLine l then parse l else none)

/-- Error classification of the outer catch block of
`detectScanners`. -/
def classifyExecError (e : String) : String :=
  if strContains e "scanimage: command not found" || strContains e "not found" then
    "SANE tools not installed. Install with: brew install sane-backends (macOS)"
  else if strContains e "no SANE devices found" then
    "No SANE devices found. Check scanner connection, power, and permissions."
  else
    "Scanner detection failed: " ++ e

/-- Cache fallback used by the detection-failure branches: return the
cached scanner with no error if fresh, else the class-specific error
message. -/
def detectFallback (st : ScannerState) (now : Int) (errMsg : String) :
    DetectResult :=
  match getCachedScanner st now with
  | some c => { scanners := [c], error := none }
  | none => { scanners := [], error := some errMsg }

/-- `ScannerManager.detectScanners`.  `exec` is the outcome of
`execAsync("scanimage -L")`: `.error e` when the command failed with
message `e`, `.ok (stdout, stderr)` otherwise.  A command failure with
no fresh cache is rethrown into the outer catch, which classifies the
message (`classifyExecError`).  On success the first parsed scanner is
written to `cachedScanner` (the freshness timestamp is NOT touched:
only `markSuccessfulScan` does that). -/
def detectScanners (parse : String → Option ScannerInfo)
    (st : ScannerState) (now : Int)
    (exec : Except String (String × String)) : DetectResult × ScannerState :=
  match exec with
  | .error e =>
    match getCachedScanner st now with
    | some c => ({ scanners := [c], error := none }, st)
    | none => ({ scanners := [], error := some (classifyExecError e) }, st)
  | .ok (stdout, stderr) =>
    if strContains stdout noScannersMsg || strContains stderr noScannersMsg then
      (detectFallback st now
        "No scanners detected. Make sure your scanner is connected and powered on.", st)
    else if strBlank stdout then
      (detectFallback st now
        "No output from scanner detection. Check if SANE is properly configured.", st)
    else
      let lines := (splitLines stdout).filter trimNonempty
      let scanners := parseScanners parse lines
      if scanners.isEmpty && !lines.isEmpty then
        ({ scanners := [],
           error := some ("Could not parse scanner information. Raw output: " ++
             joinSep " | " lines) }, st)
      else if scanners.isEmpty then
        (detectFallback st now
          "No scanners detected. Make sure your scanner is connected and powered on.", st)
      else
        ({ scanners := scanners, error := none },
         { st with cachedScanner := scanners.head? })

/-- A concrete fresh-cache scanner state used by the C1 witnesses. -/
def sampleScanner : ScannerInfo :=
  { device := "epson2:libusb:001:004", vendor := "Epson", model := "PerfectionV19",
    kind := "flatbed", available := true }

def freshCacheState : ScannerState :=
  { cachedScanner := some sampleScanner, lastSuccessfulScan := some 1000 }

/-- C1 counterexample: `detectScanners` surfaces the parse error on
non-empty output with zero parsed devices even though a fresh cached
descriptor exists (the zero-parsed cache fallback at
scanner-manager.ts lines 172-187 is unreachable: non-empty trimmed
stdout always produces at least one line, so the branch at line 163
returns first).  The claim says the call returns the cached descriptor
with no error whenever a fresh cache exists; here it returns an error
instead. -/
theorem c1_counterexample :
    getCachedScanner freshCacheState 2000 = some sampleScanner ∧
    (detectScanners (fun _ => none) freshCacheState 2000
        (.ok ("hello world", ""))).1 =
      { scanners := [],
        error := some "Could not parse scanner information. Raw output: hello world" } := by
  constructor
  · rfl
  · rfl

/-- C1 as amended: with a fresh cached descriptor, detection falls
back to the cache (returning it with no error) for a device-listing
command error, for the explicit no-scanners message, and for empty
output; but when non-empty output parses to zero devices, the parse
error is surfaced regardless of the cache. -/
theorem c1_amended_cache_fallback (parse : String → Option ScannerInfo)
    (st : ScannerState) (now : Int) (c : ScannerInfo)
    (hfresh : getCachedScanner st now = some c) :
    (∀ e, detectScanners parse st now (.error e) =
        ({ scanners := [c], error := none }, st)) ∧
    (∀ out errout,
        (strContains out noScannersMsg || strContains errout noScannersMsg) = true →
        detectScanners parse st now (.ok (out, errout)) =
          ({ scanners := [c], error := none }, st)) ∧
    (∀ out errout,
        (strContains out noScannersMsg || strContains errout noScannersMsg) = false →
        strBlank out = true →
        detectScanners parse st now (.ok (out, errout)) =
          ({ scanners := [c], error := none }, st)) ∧
    (∀ out errout,
        (strContains out noScannersMsg || strContains errout noScannersMsg) = false →
        strBlank out = false →
        parseScanners parse ((splitLines out).filter trimNonempty) = [] →
        ((splitLines out).filter trimNonempty).isEmpty = false →
        (detectScanners parse st now (.ok (out, errout))).1 =
          { scanners := [],
            error := some ("Could not parse scanner information. Raw output: " ++
              joinSep " | " ((splitLines out).filter trimNonempty)) }) := by
  refine ⟨?_, ?_, ?_, ?_⟩
  · intro e
    simp [detectScanners, hfresh]
  · intro out errout hmsg
    simp [detectScanners, detectFallback, hmsg, hfresh]
  · intro out errout hmsg htrim
    simp [detectScanners, detectFallback, hmsg, htrim, hfresh]
  · intro out errout hmsg htrim hparse hlines
    simp [detectScanners, hmsg, htrim, hparse, hlines]

/-- C1 witness: the amended theorem applied at concrete inputs for
each detection-failure class, with the fresh-cache hypothesis
discharged by evaluation. -/
theorem c1_amended_witness :
    (detectScanners (fun _ => none) freshCacheState 2000
        (.error "scanimage -L timed out")) =
      ({ scanners := [sampleScanner], error := none }, freshCacheState) ∧
    (detectScanners (fun _ => none) freshCacheState 2000
        (.ok ("No scanners were identified", ""))) =
      ({ scanners := [sampleScanner], error := none }, freshCacheState) ∧
    (detectScanners (fun _ => none) freshCacheState 2000
        (.ok ("  ", ""))) =
      ({ scanners := [sampleScanner], error := none }, freshCacheState) ∧
    (detectScanners (fun _ => none) freshCacheState 2000
        (.ok ("hello world", ""))).1.error.isSome = true := by
  have h := c1_amended_cache_fallback (fun _ => none) freshCacheState 2000
    sampleScanner (by rfl)
  refine ⟨?_, ?_, ?_, ?_⟩
  · exact h.1 "scanimage -L timed out"
  · exact h.2.1 "No scanners were identified" "" (by rfl)
  · exact h.2.2.1 "  " "" (by rfl) (by rfl)
  · rw [h.2.2.2 "hello world" "" (by rfl) (by rfl) (by rfl) (by rfl)]
    rfl

/-! ## Scan executor (`scanPage` in src/index.ts) -/

/-- Outcome of one invocation of the single-sided capture command
(`execAsync` with output redirected to the temp path): whether the
command itself failed and, independently, the state the temp file is
left in (`none` = no file; `some n` = file of `n` bytes, e.g. partial
output flushed through the shell redirection before a failure). -/
structure CaptureOutcome where
  execErr : Option String
  temp : Option Nat
deriving Repr, DecidableEq

/-- Environment of one single-sided `scanPage` run: the first capture
attempt, the result reported by `ScannerManager.attemptFix`, and the
retry capture attempt (the retry command redirects to the same temp
path, so the temp state after the retry is `cap2.temp`). -/
structure SingleScanEnv where
  cap1 : CaptureOutcome
  fixSuccess : Bool
  fixMessage : String
  cap2 : CaptureOutcome
deriving Repr, DecidableEq

/-- The capture-and-finalize block inside the try (and inside the
retry try): run the command, require the temp file to exist
(`Scan failed - no file was created`) and to be non-empty (delete it
and raise `Scan failed - empty file created` otherwise), then rename
temp to final.  Returns the final file size on success, or the raised
message together with the temp-file state at the moment of the
raise. -/
def runCaptureAttempt (c : CaptureOutcome) : Except (String × Option Nat) Nat :=
  match c.execErr with
  | some e => .error (e, c.temp)
  | none =>
    match c.temp with
    | none => .error ("Scan failed - no file was created", none)
    | some 0 => .error ("Scan failed - empty file created", none)
    | some (n + 1) => .ok (n + 1)

/-- The guarded cleanup run on every failure path: delete the temp
file only if it exists and is zero bytes (a non-empty temp file is
left in place). -/
def cleanupZeroByteTemp (t : Option Nat) : Option Nat :=
  match t with
  | some 0 => none
  | t => t

/-- The "no device found" failure signature tested by the recovery
branch. -/
def saneMsg : String := "no SANE devices found"

/-- Trace of a single-sided `scanPage` run: the surfaced result (final
file size or error message), the state of the temp path and of the
final path afterwards, how many times the capture command ran, how
many times `attemptFix` was invoked, and the scanner passed to
`markSuccessfulScan` (if any; `none` when resolution used the
configured device override). -/
structure SingleScanTrace where
  result : Except String Nat
  tempAfter : Option Nat
  finalAfter : Option Nat
  captureCount : Nat
  fixCount : Nat
  marked : Option ScannerInfo
deriving Repr

/-- The single-sided branch of `scanPage` (index.ts lines 713-828):
on a first-attempt failure the zero-byte temp cleanup runs; then, iff
the caught message contains the "no SANE devices found" signature,
`attemptFix` is invoked and on reported success the capture is retried
exactly once (a retry failure runs the zero-byte cleanup again and is
terminal); every other failure class is terminal immediately (the
else branch repeats the zero-byte cleanup, which is idempotent). -/
def scanPageSingle (disc : Option ScannerInfo) (env : SingleScanEnv) :
    SingleScanTrace :=
  match runCaptureAttempt env.cap1 with
  | .ok n =>
    { result := .ok n, tempAfter := none, finalAfter := some n,
      captureCount := 1, fixCount := 0, marked := disc }
  | .error (e, t1) =>
    let t1c := cleanupZeroByteTemp t1
    if strContains e saneMsg then
      if env.fixSuccess then
        match runCaptureAttempt env.cap2 with
        | .ok n =>
          { result := .ok n, tempAfter := none, finalAfter := some n,
            captureCount := 2, fixCount := 1, marked := disc }
        | .error (e2, t2) =>
          { result := .error ("Scan failed after fix attempt: " ++ e2),
            tempAfter := cleanupZeroByteTemp t2, finalAfter := none,
            captureCount := 2, fixCount := 1, marked := none }
      else
        { result := .error ("Scanner not available: " ++ env.fixMessage),
          tempAfter := t1c, finalAfter := none,
          captureCount := 1, fixCount := 1, marked := none }
    else
      { result := .error ("Scan failed: " ++ e),
        tempAfter := t1c, finalAfter := none,
        captureCount := 1, fixCount := 0, marked := none }

/-- Batch filename test: `f.startsWith(batchPre) && f.endsWith("." + ext)`. -/
def matchesBatch (pre ext : String) (f : String) : Bool :=
  strStartsWith f pre && strEndsWith f ("." ++ ext)

/-- JavaScript `parseInt` restricted to what batch filenames produce:
the leading digit run of the string (`none` models `NaN`). -/
def jsParseInt (s : String) : Option Nat :=
  let ds := s.toList.takeWhile Char.isDigit
  if ds.isEmpty then none
  else some (ds.foldl (fun acc c => acc * 10 + (c.toNat - 48)) 0)

/-- Everything before the last dot of a filename
(`f.slice(_, f.lastIndexOf("."))`; matching batch filenames always
contain a dot). -/
def beforeLastDot (s : String) : String :=
  String.mk (((s.toList.reverse.dropWhile (fun c => c ≠ '.')).drop 1).reverse)

/-- The numeric page index embedded in a batch filename:
`parseInt(f.slice(batchPre.length, f.lastIndexOf(".")))`. -/
def batchIndex (preLen : Nat) (f : String) : Option Nat :=
  jsParseInt (String.mk ((beforeLastDot f).toList.drop preLen))

/-- Sort key used for the numeric batch sort (`numA - numB`); the
`getD 0` default is irrelevant under the theorems' parseability
hypotheses. -/
def batchKey (preLen : Nat) (f : String) : Int :=
  ((batchIndex preLen f).getD 0 : Nat)

/-- Result of the duplex batch collection step. -/
structure DuplexCollectResult where
  result : Except String (List String)
  dirAfter : List FileEntry
deriving Repr

/-- The usable files kept by the duplex collection step: the
directory entries matching the batch name pattern, sorted numerically
by the embedded page index (the `numA - numB` comparator), restricted
to non-empty files, as names. -/
def duplexKept (pre ext : String) (dir : List FileEntry) : List String :=
  ((sortByKey (fun f => batchKey pre.toList.length f.name)
    (dir.filter (fun f => matchesBatch pre ext f.name))).filter
      (fun f => f.size != 0)).map (fun f => f.name)

/-- The collection step after a successful duplex capture command
(index.ts lines 664-690): enumerate the directory, keep files matching
the batch name pattern, sort them numerically by the embedded page
index, keep the non-empty ones (deleting every zero-byte matching
file from the directory), and fail iff no usable file remains. -/
def duplexCollect (pre ext : String) (dir : List FileEntry) :
    DuplexCollectResult :=
  { result :=
      if (duplexKept pre ext dir).isEmpty then
        .error "Duplex scan failed - no files were created"
      else .ok (duplexKept pre ext dir),
    dirAfter := dir.filter
      (fun f => !(matchesBatch pre ext f.name && f.size == 0)) }

/-- Environment of a duplex `scanPage` run: the outcome of the batch
capture command and the directory contents at the moment it
returned/failed. -/
structure DuplexScanEnv where
  execErr : Option String
  dirAfterCmd : List FileEntry
deriving Repr, DecidableEq

/-- Trace of the duplex branch of `scanPage`. -/
structure DuplexScanTrace where
  result : Except String (List String)
  dirAfter : List FileEntry
  captureCount : Nat
  fixCount : Nat
  marked : Option ScannerInfo
deriving Repr

/-- The duplex branch of `scanPage` (index.ts lines 653-711): one
batch capture; on a command failure every matching batch file is
deleted and the error is wrapped and rethrown — there is no
`attemptFix` invocation and no retry on this path; on command success
the collection step decides the outcome (its failure is also wrapped
by the catch). -/
def scanPageDuplex (pre ext : String) (disc : Option ScannerInfo)
    (env : DuplexScanEnv) : DuplexScanTrace :=
  match env.execErr with
  | some e =>
    { result := .error ("Duplex scan failed: " ++ e),
      dirAfter := env.dirAfterCmd.filter
        (fun f => !matchesBatch pre ext f.name),
      captureCount := 1, fixCount := 0, marked := none }
  | none =>
    let c := duplexCollect pre ext env.dirAfterCmd
    match c.result with
    | .error e =>
      { result := .error ("Duplex scan failed: " ++ e),
        dirAfter := c.dirAfter, captureCount := 1, fixCount := 0,
        marked := none }
    | .ok files =>
      { result := .ok files, dirAfter := c.dirAfter,
        captureCount := 1, fixCount := 0, marked := disc }

/-- Environment of one `scanPage` call: device resolution outcome
(`.error` = detection failed and is rethrown as
`Scanner not available`; `.ok disc` = resolved, with `disc` the
discovered scanner or `none` for a configured override device), the
duplex setting, and the per-branch capture environments. -/
structure ScanEnv where
  resolution : Except String (Option ScannerInfo)
  duplex : Bool
  singleEnv : SingleScanEnv
  duplexEnv : DuplexScanEnv
deriving Repr

/-- Summary trace of one `scanPage` call. -/
structure ScanPageTrace where
  success : Bool
  errorMsg : Option String
  captureCount : Nat
  fixCount : Nat
deriving Repr, DecidableEq

/-- Top level of `scanPage`: resolve the device (failing fast on a
detection error), then run the duplex or the single-sided branch. -/
def scanPage (pre ext : String) (env : ScanEnv) : ScanPageTrace :=
  match env.resolution with
  | .error e =>
    { success := false, errorMsg := some ("Scanner not available: " ++ e),
      captureCount := 0, fixCount := 0 }
  | .ok disc =>
    if env.duplex then
      let t := scanPageDuplex pre ext disc env.duplexEnv
      match t.result with
      | .ok _ =>
        { success := true, errorMsg := none,
          captureCount := t.captureCount, fixCount := t.fixCount }
      | .error e =>
        { success := false, errorMsg := some e,
          captureCount := t.captureCount, fixCount := t.fixCount }
    else
      let t := scanPageSingle disc env.singleEnv
      match t.result with
      | .ok _ =>
        { success := true, errorMsg := none,
          captureCount := t.captureCount, fixCount := t.fixCount }
      | .error e =>
        { success := false, errorMsg := some e,
          captureCount := t.captureCount, fixCount := t.fixCount }

theorem cleanupZeroByteTemp_ne_zero (t : Option Nat) :
    cleanupZeroByteTemp t ≠ some 0 := by
  rcases t with _ | n
  · simp [cleanupZeroByteTemp]
  · rcases n with _ | m <;> simp [cleanupZeroByteTemp]

theorem runCaptureAttempt_ok_pos (c : CaptureOutcome) (n : Nat)
    (h : runCaptureAttempt c = .ok n) : n ≠ 0 := by
  unfold runCaptureAttempt at h
  rcases c with ⟨_ | e, _ | m⟩ <;> simp at h
  rcases m with _ | k <;> simp at h
  omega

/-- C4 counterexample: a single-sided capture whose command fails
after shell redirection already wrote a non-empty partial temp file.
The failure-path cleanup only deletes zero-byte temp files, so the
`.tmp` artifact (5 bytes here) remains in the output directory after
the failed attempt — contradicting "no temporary artifact ... remains
in the output directory afterwards". -/
theorem c4_counterexample :
    (scanPageSingle none
        { cap1 := { execErr := some "Input/output error", temp := some 5 },
          fixSuccess := false, fixMessage := "",
          cap2 := { execErr := none, temp := none } }).result =
      .error "Scan failed: Input/output error" ∧
    (scanPageSingle none
        { cap1 := { execErr := some "Input/output error", temp := some 5 },
          fixSuccess := false, fixMessage := "",
          cap2 := { execErr := none, temp := none } }).tempAfter = some 5 := by
  exact ⟨rfl, rfl⟩

/-- C4 as amended: after every completed single-sided scan attempt no
zero-byte file remains at the temp path or at the final path, and a
successful attempt leaves exactly one non-empty final artifact and no
temp file; but the failure-path cleanup is limited to zero-byte temp
files, so a failed capture that produced a NON-empty temp file leaves
that `.tmp` file behind. -/
theorem c4_amended_cleanup (disc : Option ScannerInfo)
    (env : SingleScanEnv) :
    (scanPageSingle disc env).tempAfter ≠ some 0 ∧
    (scanPageSingle disc env).finalAfter ≠ some 0 ∧
    (∀ n, (scanPageSingle disc env).result = .ok n →
        (scanPageSingle disc env).tempAfter = none ∧
        (scanPageSingle disc env).finalAfter = some n ∧ n ≠ 0) ∧
    (∀ e, (scanPageSingle disc env).result = .error e →
        (scanPageSingle disc env).finalAfter = none) := by
  unfold scanPageSingle
  rcases h1 : runCaptureAttempt env.cap1 with ⟨e1, t1⟩ | n1
  · dsimp only
    by_cases hs : strContains e1 saneMsg
    · rw [if_pos hs]
      by_cases hf : env.fixSuccess
      · rw [if_pos hf]
        rcases h2 : runCaptureAttempt env.cap2 with ⟨e2, t2⟩ | n2
        · refine ⟨cleanupZeroByteTemp_ne_zero t2, by simp, by simp, by simp⟩
        · refine ⟨by simp, ?_, ?_, by simp⟩
          · simp only [ne_eq, Option.some.injEq]
            exact runCaptureAttempt_ok_pos env.cap2 n2 h2
          · intro n hn
            simp only [Except.ok.injEq] at hn
            subst hn
            exact ⟨rfl, rfl, runCaptureAttempt_ok_pos env.cap2 n2 h2⟩
      · rw [if_neg hf]
        exact ⟨cleanupZeroByteTemp_ne_zero t1, by simp, by simp, by simp⟩
    · rw [if_neg hs]
      exact ⟨cleanupZeroByteTemp_ne_zero t1, by simp, by simp, by simp⟩
  · dsimp only
    refine ⟨by simp, ?_, ?_, by simp⟩
    · simp only [ne_eq, Option.some.injEq]
      exact runCaptureAttempt_ok_pos env.cap1 n1 h1
    · intro n hn
      simp only [Except.ok.injEq] at hn
      subst hn
      exact ⟨rfl, rfl, runCaptureAttempt_ok_pos env.cap1 n1 h1⟩

/-- C4 witness: the amended theorem applied to a concrete failed
attempt whose command left a zero-byte temp file (the cleanup removes
it) and to a concrete successful attempt. -/
theorem c4_amended_witness :
    (scanPageSingle none
        { cap1 := { execErr := some "scanner jam", temp := some 0 },
          fixSuccess := false, fixMessage := "",
          cap2 := { execErr := none, temp := none } }).tempAfter ≠ some 0 ∧
    (scanPageSingle (some sampleScanner)
        { cap1 := { execErr := none, temp := some 2048 },
          fixSuccess := false, fixMessage := "",
          cap2 := { execErr := none, temp := none } }).tempAfter = none ∧
    (scanPageSingle (some sampleScanner)
        { cap1 := { execErr := none, temp := some 2048 },
          fixSuccess := false, fixMessage := "",
          cap2 := { execErr := none, temp := none } }).finalAfter = some 2048 := by
  refine ⟨?_, ?_, ?_⟩
  · exact (c4_amended_cleanup none
      { cap1 := { execErr := some "scanner jam", temp := some 0 },
        fixSuccess := false, fixMessage := "",
        cap2 := { execErr := none, temp := none } }).1
  · exact ((c4_amended_cleanup (some sampleScanner)
      { cap1 := { execErr := none, temp := some 2048 },
        fixSuccess := false, fixMessage := "",
        cap2 := { execErr := none, temp := none } }).2.2.1 2048 rfl).1
  · exact ((c4_amended_cleanup (some sampleScanner)
      { cap1 := { execErr := none, temp := some 2048 },
        fixSuccess := false, fixMessage := "",
        cap2 := { execErr := none, temp := none } }).2.2.1 2048 rfl).2.1

/-- A concrete duplex scan environment whose batch capture command
fails with the "no device found" signature. -/
def c3DuplexEnv : ScanEnv :=
  { resolution := .ok (some sampleScanner), duplex := true,
    singleEnv :=
      { cap1 := { execErr := none, temp := none },
        fixSuccess := true, fixMessage := "",
        cap2 := { execErr := none, temp := none } },
    duplexEnv :=
      { execErr := some "scanimage: no SANE devices found", dirAfterCmd := [] } }

/-- C3 counterexample: a duplex batch capture failing with the
"no SANE devices found" class is terminal immediately — `attemptFix`
is never invoked (fixCount = 0) and the capture is not retried
(captureCount = 1), because the recovery branch exists only on the
single-sided path (index.ts lines 760-809) while the duplex branch
rethrows from its own catch (lines 698-710).  This contradicts the
claim's "for duplex batch captures as well as single-sided
captures". -/
theorem c3_counterexample :
    strContains "scanimage: no SANE devices found" saneMsg = true ∧
    scanPage "scan-T-p" "tiff" c3DuplexEnv =
      { success := false,
        errorMsg := some "Duplex scan failed: scanimage: no SANE devices found",
        captureCount := 1, fixCount := 0 } := by
  exact ⟨rfl, rfl⟩

/-- C3 as amended: the fix-and-retry recovery applies only to
single-sided captures.  There, a capture failure invokes `attemptFix`
iff the caught message contains the "no SANE devices found" signature;
on reported fix success the capture is retried exactly once and the
run succeeds iff the retry capture succeeds; a fix failure and every
other failure class are terminal with exactly one capture.  A duplex
batch capture never invokes `attemptFix` and never retries. -/
theorem c3_amended_retry_policy (pre ext : String) (env : ScanEnv)
    (disc : Option ScannerInfo) (hres : env.resolution = .ok disc) :
    (env.duplex = false →
      (∀ n, runCaptureAttempt env.singleEnv.cap1 = .ok n →
          scanPage pre ext env =
            { success := true, errorMsg := none,
              captureCount := 1, fixCount := 0 }) ∧
      (∀ e t, runCaptureAttempt env.singleEnv.cap1 = .error (e, t) →
          strContains e saneMsg = false →
          (scanPage pre ext env).success = false ∧
          (scanPage pre ext env).captureCount = 1 ∧
          (scanPage pre ext env).fixCount = 0) ∧
      (∀ e t, runCaptureAttempt env.singleEnv.cap1 = .error (e, t) →
          strContains e saneMsg = true →
          (scanPage pre ext env).fixCount = 1 ∧
          (env.singleEnv.fixSuccess = false →
            (scanPage pre ext env).success = false ∧
            (scanPage pre ext env).captureCount = 1) ∧
          (env.singleEnv.fixSuccess = true →
            (scanPage pre ext env).captureCount = 2 ∧
            ((scanPage pre ext env).success = true ↔
              ∃ n, runCaptureAttempt env.singleEnv.cap2 = .ok n)))) ∧
    (env.duplex = true →
      (scanPage pre ext env).fixCount = 0 ∧
      (scanPage pre ext env).captureCount = 1) := by
  constructor
  · intro hdx
    refine ⟨?_, ?_, ?_⟩
    · intro n h1
      simp [scanPage, hres, hdx, scanPageSingle, h1]
    · intro e t h1 hs
      simp [scanPage, hres, hdx, scanPageSingle, h1, hs]
    · intro e t h1 hs
      by_cases hf : env.singleEnv.fixSuccess
      · rcases h2 : runCaptureAttempt env.singleEnv.cap2 with ⟨e2, t2⟩ | n2
        · simp [scanPage, hres, hdx, scanPageSingle, h1, hs, hf, h2]
        · simp [scanPage, hres, hdx, scanPageSingle, h1, hs, hf, h2]
      · simp [scanPage, hres, hdx, scanPageSingle, h1, hs, hf]
  · intro hdx
    simp only [scanPage, hres, hdx, if_pos rfl]
    rcases hx : env.duplexEnv.execErr with _ | e
    · simp only [scanPageDuplex, hx]
      rcases hc : (duplexCollect pre ext env.duplexEnv.dirAfterCmd).result
        with e' | files <;> simp [hc]
    · simp [scanPageDuplex, hx]

/-- A concrete single-sided environment: first capture fails with the
"no device found" signature, the fix succeeds, the retry capture
succeeds. -/
def c3SingleEnv : ScanEnv :=
  { resolution := .ok (some sampleScanner), duplex := false,
    singleEnv :=
      { cap1 := { execErr := some "sane_start: no SANE devices found",
                  temp := some 0 },
        fixSuccess := true, fixMessage := "fixed",
        cap2 := { execErr := none, temp := some 2048 } },
    duplexEnv := { execErr := none, dirAfterCmd := [] } }

/-- C3 witness: the amended theorem applied to `c3SingleEnv` (one fix
invocation, exactly two captures, success decided by the retry) and to
`c3DuplexEnv` (no fix invocation, one capture). -/
theorem c3_amended_witness :
    (scanPage "scan-T-p" "pdf" c3SingleEnv).fixCount = 1 ∧
    (scanPage "scan-T-p" "pdf" c3SingleEnv).captureCount = 2 ∧
    (scanPage "scan-T-p" "pdf" c3SingleEnv).success = true ∧
    (scanPage "scan-T-p" "tiff" c3DuplexEnv).fixCount = 0 ∧
    (scanPage "scan-T-p" "tiff" c3DuplexEnv).captureCount = 1 := by
  have hs := (c3_amended_retry_policy "scan-T-p" "pdf" c3SingleEnv
    (some sampleScanner) rfl).1 rfl
  have h3 := hs.2.2 "sane_start: no SANE devices found" (some 0) rfl rfl
  have hd := (c3_amended_retry_policy "scan-T-p" "tiff" c3DuplexEnv
    (some sampleScanner) rfl).2 rfl
  refine ⟨h3.1, (h3.2.2 rfl).1, ?_, hd.1, hd.2⟩
  exact (h3.2.2 rfl).2.mpr ⟨2048, rfl⟩

theorem pairwise_conj {α : Type} {R S : α → α → Prop} :
    ∀ {l : List α}, l.Pairwise R → l.Pairwise S →
      l.Pairwise (fun a b => R a b ∧ S a b) := by
  intro l
  induction l with
  | nil => intro _ _; exact List.Pairwise.nil
  | cons a t ih =>
    intro hR hS
    rcases List.pairwise_cons.mp hR with ⟨hRa, hRt⟩
    rcases List.pairwise_cons.mp hS with ⟨hSa, hSt⟩
    exact List.pairwise_cons.mpr ⟨fun x hx => ⟨hRa x hx, hSa x hx⟩, ih hRt hSt⟩

theorem duplexCollect_eq (pre ext : String) (dir : List FileEntry) :
    duplexCollect pre ext dir =
      { result :=
          if (duplexKept pre ext dir).isEmpty then
            .error "Duplex scan failed - no files were created"
          else .ok (duplexKept pre ext dir),
        dirAfter := dir.filter
          (fun f => !(matchesBatch pre ext f.name && f.size == 0)) } := rfl

theorem duplexKept_mem (pre ext : String) (dir : List FileEntry) (n : String) :
    n ∈ duplexKept pre ext dir ↔
      ∃ f ∈ dir, matchesBatch pre ext f.name = true ∧ f.size ≠ 0 ∧
        f.name = n := by
  have hperm := sortByKey_perm (fun f => batchKey pre.toList.length f.name)
    (dir.filter (fun f => matchesBatch pre ext f.name))
  constructor
  · intro hn
    rcases List.mem_map.mp hn with ⟨f, hf, rfl⟩
    rcases List.mem_filter.mp hf with ⟨hfs, hsz⟩
    rcases List.mem_filter.mp (hperm.subset hfs) with ⟨hfd, hmb⟩
    exact ⟨f, hfd, hmb, by simpa using hsz, rfl⟩
  · rintro ⟨f, hfd, hmb, hsz, rfl⟩
    refine List.mem_map.mpr ⟨f, ?_, rfl⟩
    refine List.mem_filter.mpr ⟨?_, by simpa using hsz⟩
    exact hperm.mem_iff.mpr (List.mem_filter.mpr ⟨hfd, hmb⟩)

theorem sortByKey_pairwise_lt {α : Type} (key : α → Int) (l : List α)
    (hnodup : (l.map key).Nodup) :
    (sortByKey key l).Pairwise (fun a b => key a < key b) := by
  have hperm := sortByKey_perm key l
  have hpw := sortByKey_pairwise key l
  have hnd1 : ((sortByKey key l).map key).Nodup :=
    hnodup.perm (hperm.map key).symm
  have hne := List.pairwise_map.mp hnd1
  exact (pairwise_conj hpw hne).imp (fun h => lt_of_le_of_ne h.1 h.2)

/-- C9: after a successful duplex capture command, the collection step
returns exactly the batch-matching non-empty files, ordered strictly
by the numeric page index embedded in the filename, with every
zero-byte matching file deleted from the directory, and it fails iff
zero usable files remain.  The hypothesis says the parsed numeric
indices of the matching files are pairwise distinct (as they are for
the `...p<index>.<ext>` names the batch capture produces). -/
theorem c9_duplex_collection (pre ext : String) (dir : List FileEntry)
    (hnodup : ((dir.filter (fun f => matchesBatch pre ext f.name)).map
        (fun f => batchKey pre.toList.length f.name)).Nodup) :
    (∀ files, (duplexCollect pre ext dir).result = .ok files →
        (∀ n, n ∈ files ↔ ∃ f ∈ dir, matchesBatch pre ext f.name = true ∧
            f.size ≠ 0 ∧ f.name = n) ∧
        List.Pairwise (fun a b =>
          batchKey pre.toList.length a < batchKey pre.toList.length b) files) ∧
    ((∃ e, (duplexCollect pre ext dir).result = .error e) ↔
        ∀ f ∈ dir, matchesBatch pre ext f.name = true → f.size = 0) ∧
    (∀ g, g ∈ (duplexCollect pre ext dir).dirAfter ↔
        g ∈ dir ∧ ¬(matchesBatch pre ext g.name = true ∧ g.size = 0)) := by
  refine ⟨?_, ?_, ?_⟩
  · intro files hres
    rw [duplexCollect_eq] at hres
    simp only at hres
    by_cases hk : (duplexKept pre ext dir).isEmpty
    · rw [if_pos hk] at hres
      exact absurd hres (by simp)
    · rw [if_neg hk] at hres
      injection hres with hfk
      subst hfk
      refine ⟨duplexKept_mem pre ext dir, ?_⟩
      have hlt := @sortByKey_pairwise_lt FileEntry
        (fun f => batchKey pre.toList.length f.name)
        (dir.filter (fun f => matchesBatch pre ext f.name)) hnodup
      have hflt := hlt.sublist
        (@List.filter_sublist FileEntry (fun f => f.size != 0) _)
      exact List.pairwise_map.mpr hflt
  · rw [duplexCollect_eq]
    simp only
    constructor
    · rintro ⟨e, hres⟩ f hfd hmb
      by_cases hk : (duplexKept pre ext dir).isEmpty
      · by_contra hsz
        have hmem : f.name ∈ duplexKept pre ext dir :=
          (duplexKept_mem pre ext dir f.name).mpr ⟨f, hfd, hmb, hsz, rfl⟩
        rw [List.isEmpty_iff.mp hk] at hmem
        exact absurd hmem (List.not_mem_nil _)
      · rw [if_neg hk] at hres
        exact absurd hres (by simp)
    · intro hall
      have hnil : duplexKept pre ext dir = [] := by
        rcases hmem : duplexKept pre ext dir with _ | ⟨n, rest⟩
        · rfl
        · exfalso
          have hn : n ∈ duplexKept pre ext dir := by
            rw [hmem]; exact List.mem_cons_self n rest
          rcases (duplexKept_mem pre ext dir n).mp hn with ⟨f, hfd, hmb, hsz, -⟩
          exact hsz (hall f hfd hmb)
      rw [hnil]
      exact ⟨_, rfl⟩
  · intro g
    rw [duplexCollect_eq]
    simp only [List.mem_filter]
    constructor
    · rintro ⟨hgd, hb⟩
      refine ⟨hgd, ?_⟩
      rintro ⟨hm, hz⟩
      rw [hm, hz] at hb
      simp at hb
    · rintro ⟨hgd, hb⟩
      refine ⟨hgd, ?_⟩
      by_cases hm : matchesBatch pre ext g.name
      · by_cases hz : g.size = 0
        · exact absurd ⟨hm, hz⟩ hb
        · rw [hm]
          simp [hz]
      · simp [hm]

/-- Concrete directory for the C9 witness: matching files with indices
10 and 2 listed in lexicographic order (p10 before p2), a zero-byte
matching file with index 3, and an unrelated file. -/
def c9Dir : List FileEntry :=
  [ { name := "scan-T-p10.pdf", size := 5, mtime := 0, pdfContent := some 1 },
    { name := "scan-T-p2.pdf", size := 7, mtime := 0, pdfContent := some 1 },
    { name := "scan-T-p3.pdf", size := 0, mtime := 0, pdfContent := some 1 },
    { name := "notes.txt", size := 9, mtime := 0, pdfContent := none } ]

/-- C9 witness: on `c9Dir` the collection keeps exactly the two
non-empty matching files, ordered p2 before p10 (numeric, not
lexicographic), and the theorem's strict-ordering conclusion applies
with the distinct-indices hypothesis discharged by evaluation. -/
theorem c9_witness :
    (duplexCollect "scan-T-p" "pdf" c9Dir).result =
      .ok ["scan-T-p2.pdf", "scan-T-p10.pdf"] ∧
    (duplexCollect "scan-T-p" "pdf" c9Dir).dirAfter =
      [ { name := "scan-T-p10.pdf", size := 5, mtime := 0, pdfContent := some 1 },
        { name := "scan-T-p2.pdf", size := 7, mtime := 0, pdfContent := some 1 },
        { name := "notes.txt", size := 9, mtime := 0, pdfContent := none } ] ∧
    List.Pairwise (fun a b =>
        batchKey "scan-T-p".toList.length a < batchKey "scan-T-p".toList.length b)
      ["scan-T-p2.pdf", "scan-T-p10.pdf"] := by
  refine ⟨rfl, rfl, ?_⟩
  exact ((c9_duplex_collection "scan-T-p" "pdf" c9Dir (by decide)).1
    ["scan-T-p2.pdf", "scan-T-p10.pdf"] rfl).2

/-! ## DocumentSessionManager (src/document-session.ts) -/

/-- A page registered in a session (`PageInfo` in the source).  In the
single-directory filesystem model, `filepath` and `filename` both hold
the file name inside the scan output directory. -/
structure PageInfo where
  id : String
  filename : String
  filepath : String
  timestamp : Int
  size : Nat
  pageNumber : Nat
deriving Repr, DecidableEq

/-- A document session (`DocumentSession` in the source). -/
structure DocumentSession where
  id : String
  name : String
  pages : List PageInfo
  created : Int
  modified : Int
deriving Repr, DecidableEq

/-- Manager state: the `sessions` Map (as an insertion-ordered
association list) and the fresh-id counter feeding `generateId`. -/
structure DSMState where
  sessions : List (String × DocumentSession)
  nextId : Nat
deriving Repr, DecidableEq

/-- Result of the add/remove/reorder operations. -/
structure OpResult where
  success : Bool
  error : Option String
deriving Repr, DecidableEq

/-- `generateId`: the source derives ids from clock and randomness;
the model uses an injective function of a fresh counter, since only
freshness and uniqueness of generated ids are observable. -/
def genId (n : Nat) : String :=
  "id-" ++ String.mk (List.replicate n '*')

/-- JavaScript `Map.prototype.set` on an insertion-ordered assoc
list. -/
def mapSet (m : List (String × DocumentSession)) (k : String)
    (v : DocumentSession) : List (String × DocumentSession) :=
  if m.any (fun p => p.1 == k) then
    m.map (fun p => if p.1 == k then (k, v) else p)
  else m ++ [(k, v)]

/-- JavaScript `Map.prototype.get`. -/
def mapGet (m : List (String × DocumentSession)) (k : String) :
    Option DocumentSession :=
  (m.find? (fun p => p.1 == k)).map (fun p => p.2)

/-- Recognized scan-artifact extensions (`validExtensions`). -/
def validExtensions : List String :=
  [".pdf", ".tiff", ".png", ".jpeg", ".jpg"]

/-- The scan-artifact filename filter in `loadSessions`:
`file.startsWith("scan-") && validExtensions.some(e => file.endsWith(e))`. -/
def isScanArtifact (name : String) : Bool :=
  strStartsWith name "scan-" &&
    validExtensions.any (fun e => strEndsWith name e)

/-- A directory entry that `loadSessions` turns into a page: matching
name and non-zero size. -/
def usableFile (f : FileEntry) : Bool :=
  isScanArtifact f.name && f.size != 0

/-- The map step of `loadSessions` over the name-filtered directory
listing: zero-byte files are skipped (and deleted on the side);
every kept file becomes a `PageInfo` with a freshly generated id
(`generateId` is called only inside the non-zero branch, so ids are
consumed in directory order by the kept files). -/
def buildPages (n0 : Nat) : List FileEntry → List PageInfo
  | [] => []
  | f :: rest =>
    if f.size == 0 then buildPages n0 rest
    else
      { id := genId n0, filename := f.name, filepath := f.name,
        timestamp := f.mtime, size := f.size, pageNumber := 0 } ::
        buildPages (n0 + 1) rest

/-- The renumbering `forEach((p, index) => p.pageNumber = index + 1)`
applied to a list of pairwise-distinct page objects. -/
def renumberFrom (k : Nat) : List PageInfo → List PageInfo
  | [] => []
  | p :: ps => { p with pageNumber := k } :: renumberFrom (k + 1) ps

/-- Stable sort by modification time
(`sort((a, b) => a.timestamp.getTime() - b.timestamp.getTime())`). -/
def sortByMtime (ps : List PageInfo) : List PageInfo :=
  sortByKey (fun p => p.timestamp) ps

/-- `DocumentSessionManager.loadSessions`: list the directory, keep
recognized scan artifacts, delete zero-byte ones, build pages with
fresh ids, sort by modification time, renumber from 1, and store the
result as the `default` session — but only when at least one page was
found: with zero kept files the method returns without touching the
sessions map, so stale in-memory state survives. -/
def loadSessions (st : DSMState) (dir : List FileEntry) :
    DSMState × List FileEntry :=
  let valid := dir.filter (fun f => isScanArtifact f.name)
  let pages0 := buildPages st.nextId valid
  let used := (valid.filter (fun f => f.size != 0)).length
  let dir1 := dir.filter (fun f => !(isScanArtifact f.name && f.size == 0))
  let sorted := sortByMtime pages0
  if sorted.isEmpty then
    ({ st with nextId := st.nextId + used }, dir1)
  else
    let pages := renumberFrom 1 sorted
    ({ sessions := mapSet st.sessions "default"
        { id := "default", name := "Current Document", pages := pages,
          created := ((pages.head?).map (fun p => p.timestamp)).getD 0,
          modified := ((pages.getLast?).map (fun p => p.timestamp)).getD 0 },
       nextId := st.nextId + used }, dir1)

/-- `getSessions`: refresh from the filesystem, then return all
sessions. -/
def getSessions (st : DSMState) (dir : List FileEntry) :
    List DocumentSession × DSMState × List FileEntry :=
  let r := loadSessions st dir
  (r.1.sessions.map (fun p => p.2), r.1, r.2)

/-- `getSession`: refresh from the filesystem, then look the id up. -/
def getSession (sid : String) (st : DSMState) (dir : List FileEntry) :
    Option DocumentSession × DSMState × List FileEntry :=
  let r := loadSessions st dir
  (mapGet r.1.sessions sid, r.1, r.2)

/-- `createSession`. -/
def createSession (name : Option String) (now : Int) (st : DSMState) :
    DocumentSession × DSMState :=
  let sess : DocumentSession :=
    { id := genId st.nextId, name := name.getD "Document", pages := [],
      created := now, modified := now }
  (sess, { sessions := mapSet st.sessions sess.id sess,
           nextId := st.nextId + 1 })

/-- `addPageToSession`: refresh via `getSession`, materialize the
session if absent, require the file to exist, delete it and fail if it
is zero bytes, else append a `PageInfo` with a fresh id and page
number `pages.length + 1`. -/
def addPageToSession (sid fp : String) (now : Int) (st : DSMState)
    (dir : List FileEntry) : OpResult × DSMState × List FileEntry :=
  let r := getSession sid st dir
  let st1 := r.2.1
  let dir1 := r.2.2
  let sess : DocumentSession :=
    match r.1 with
    | some s => s
    | none =>
      { id := sid,
        name := if sid == "default" then "Current Document"
          else "Document " ++ sid,
        pages := [], created := now, modified := now }
  match findFile dir1 fp with
  | none => ({ success := false, error := some "Page file not found" },
      st1, dir1)
  | some f =>
    if f.size == 0 then
      ({ success := false, error := some "Page file is empty" },
       st1, dir1.filter (fun g => g.name != fp))
    else
      let newPage : PageInfo :=
        { id := genId st1.nextId, filename := fp, filepath := fp,
          timestamp := f.mtime, size := f.size,
          pageNumber := sess.pages.length + 1 }
      let sess2 : DocumentSession :=
        { sess with pages := sess.pages ++ [newPage], modified := now }
      ({ success := true, error := none },
       { sessions := mapSet st1.sessions sid sess2,
         nextId := st1.nextId + 1 }, dir1)

/-- Index (from a given start) of the LAST occurrence of a page id in
a list. -/
def lastIdxAux (pid : String) : List PageInfo → Nat → Option Nat
  | [], _ => none
  | p :: ps, i =>
    match lastIdxAux pid ps (i + 1) with
    | some j => some j
    | none => if p.id == pid then some i else none

/-- The renumbering `forEach` under JavaScript reference semantics:
`reorderedPages`/the surviving pages may contain the same `PageInfo`
OBJECT several times (e.g. when an id was passed twice to
`reorderPages`), and the sequential `page.pageNumber = index + 1`
writes leave every occurrence of that object with the number of its
LAST occurrence.  Page ids act as object identity (each object is
created with a fresh id). -/
def aliasRenumber (l : List PageInfo) : List PageInfo :=
  l.map (fun p => { p with pageNumber := (lastIdxAux p.id l 0).getD 0 + 1 })

/-- `removePageFromSession`: refresh via `getSession`, resolve the
page by id first and by filepath second, delete the underlying file,
splice it out and renumber the remaining pages. -/
def removePageFromSession (sid pidOrPath : String) (now : Int)
    (st : DSMState) (dir : List FileEntry) :
    OpResult × DSMState × List FileEntry :=
  let r := getSession sid st dir
  let st1 := r.2.1
  let dir1 := r.2.2
  match r.1 with
  | none => ({ success := false, error := some "Session not found" },
      st1, dir1)
  | some sess =>
    let idx :=
      match sess.pages.findIdx? (fun p => p.id == pidOrPath) with
      | some i => some i
      | none => sess.pages.findIdx? (fun p => p.filepath == pidOrPath)
    match idx with
    | none => ({ success := false, error := some "Page not found" },
        st1, dir1)
    | some i =>
      match sess.pages[i]? with
      | none => ({ success := false, error := some "Page not found" },
          st1, dir1)
      | some page =>
        let pages2 := aliasRenumber (sess.pages.eraseIdx i)
        let sess2 : DocumentSession :=
          { sess with pages := pages2, modified := now }
        ({ success := true, error := none },
         { st1 with sessions := mapSet st1.sessions sid sess2 },
         dir1.filter (fun g => g.name != page.filepath))

/-- The validation loop of `reorderPages`: look every requested id up
in order and fail on the first unknown one; a repeated id picks the
same page object again. -/
def collectReorder (pages : List PageInfo) :
    List String → Except String (List PageInfo)
  | [] => .ok []
  | pid :: rest =>
    match pages.find? (fun p => p.id == pid) with
    | none => .error pid
    | some p => (collectReorder pages rest).map (fun l => p :: l)

/-- `reorderPages`: refresh via `getSession`, validate every id before
mutating anything, then install the picked pages renumbered (under
reference semantics, `aliasRenumber`). -/
def reorderPages (sid : String) (pageIds : List String) (now : Int)
    (st : DSMState) (dir : List FileEntry) :
    OpResult × DSMState × List FileEntry :=
  let r := getSession sid st dir
  let st1 := r.2.1
  let dir1 := r.2.2
  match r.1 with
  | none => ({ success := false, error := some "Session not found" },
      st1, dir1)
  | some sess =>
    match collectReorder sess.pages pageIds with
    | .error pid =>
      ({ success := false, error := some ("Page " ++ pid ++ " not found") },
       st1, dir1)
    | .ok picked =>
      let pages2 := aliasRenumber picked
      let sess2 : DocumentSession :=
        { sess with pages := pages2, modified := now }
      ({ success := true, error := none },
       { st1 with sessions := mapSet st1.sessions sid sess2 },
       dir1)

/-- Loading every input document in order with pdf-lib; `none` if any
load fails. -/
def loadAll : List FileEntry → Option Nat
  | [] => some 0
  | f :: fs =>
    match f.pdfContent, loadAll fs with
    | some n, some m => some (n + m)
    | _, _ => none

/-- `combinePdfPages` (the structured pdf-lib merge path): iterate the
session pages in order, SKIP missing files with a warning, append the
content pages of each loadable file to the accumulating document, and
save — pdf-lib saves a document with zero pages without error, so the
output file is written even when every page file was missing. -/
def combinePdfPages (sess : DocumentSession) (dir : List FileEntry)
    (sid ts : String) (now : Int) :
    Except String String × List FileEntry :=
  let existing := sess.pages.filterMap (fun p => findFile dir p.filepath)
  match loadAll existing with
  | none => (.error "Failed to combine PDF pages: load error", dir)
  | some total =>
    (.ok ("combined-" ++ sid ++ "-" ++ ts ++ ".pdf"),
     dir ++ [{ name := "combined-" ++ sid ++ "-" ++ ts ++ ".pdf",
               size := total + 1, mtime := now, pdfContent := some total }])

/-- `combineTiffPages` (the external img2pdf merge path): filter the
session pages to existing files, fail before invoking the tool when
zero remain, else run img2pdf (`ok` parameter = its outcome). -/
def combineTiffPages (sess : DocumentSession) (dir : List FileEntry)
    (sid ts : String) (ok : Bool) (now : Int) :
    Except String String × List FileEntry :=
  let inputFiles := sess.pages.filter
    (fun p => (findFile dir p.filepath).isSome)
  if inputFiles.isEmpty then
    (.error "Failed to combine TIFF pages into PDF: No valid TIFF files to combine",
     dir)
  else
    let outName := (if inputFiles.length > 1 then "combined-" ++ sid else sid)
      ++ "-" ++ ts ++ ".pdf"
    if ok then
      (.ok outName,
       dir ++ [{ name := outName, size := 1, mtime := now,
                 pdfContent := some inputFiles.length }])
    else
      (.error "Failed to combine TIFF pages into PDF: img2pdf error", dir)

/-- JavaScript `s.toUpperCase()` (ASCII). -/
def upperStr (s : String) : String :=
  String.mk (s.toList.map Char.toUpper)

/-- `combineSessionPages`: refresh via `getSession`, fail when the
session is absent or has no pages, then dispatch on the configured
output format. -/
def combineSessionPages (sid format ts : String) (ok : Bool) (now : Int)
    (st : DSMState) (dir : List FileEntry) :
    Except String String × DSMState × List FileEntry :=
  let r := getSession sid st dir
  let st1 := r.2.1
  let dir1 := r.2.2
  match r.1 with
  | none => (.error "No pages to combine", st1, dir1)
  | some sess =>
    if sess.pages.isEmpty then (.error "No pages to combine", st1, dir1)
    else if format == "tiff" then
      let c := combineTiffPages sess dir1 sid ts ok now
      (c.1, st1, c.2)
    else if format == "pdf" then
      let c := combinePdfPages sess dir1 sid ts now
      (c.1, st1, c.2)
    else
      (.error ("Combining is not supported for " ++ upperStr format ++
        " format"), st1, dir1)

/-- Decidable check that a page list is numbered `k, k+1, ...`. -/
def contigFrom : Nat → List PageInfo → Bool
  | _, [] => true
  | k, p :: ps => p.pageNumber == k && contigFrom (k + 1) ps

/-- Decidable check for the contiguous `1..N` numbering invariant. -/
def contigPages (ps : List PageInfo) : Bool := contigFrom 1 ps

theorem contigFrom_renumberFrom (l : List PageInfo) :
    ∀ k, contigFrom k (renumberFrom k l) = true := by
  induction l with
  | nil => intro k; rfl
  | cons p ps ih =>
    intro k
    simp [renumberFrom, contigFrom, ih (k + 1)]

theorem contigFrom_append_one (p : PageInfo) (l : List PageInfo) :
    ∀ k, contigFrom k l = true → p.pageNumber = k + l.length →
      contigFrom k (l ++ [p]) = true := by
  induction l with
  | nil =>
    intro k _ hp
    simp [contigFrom, hp]
  | cons q qs ih =>
    intro k hc hp
    simp only [contigFrom, Bool.and_eq_true, beq_iff_eq] at hc
    simp only [List.cons_append, contigFrom, Bool.and_eq_true, beq_iff_eq]
    refine ⟨hc.1, ih (k + 1) hc.2 ?_⟩
    simp only [List.length_cons] at hp
    omega

theorem genId_inj {m n : Nat} (h : genId m = genId n) : m = n := by
  unfold genId at h
  have hd := congrArg String.data h
  simp only [String.mk] at hd
  have := congrArg List.length hd
  simpa using this

theorem strStartsWith_genId_scan (n : Nat) :
    strStartsWith (genId n) "scan-" = false := rfl

theorem genId_ne_scan {n : Nat} {s : String}
    (hs : strStartsWith s "scan-" = true) : genId n ≠ s := by
  intro h
  rw [← h] at hs
  rw [strStartsWith_genId_scan] at hs
  exact Bool.false_ne_true hs

theorem renumberFrom_map_id (l : List PageInfo) :
    ∀ k, (renumberFrom k l).map (fun p => p.id) = l.map (fun p => p.id) := by
  induction l with
  | nil => intro k; rfl
  | cons p ps ih => intro k; simp [renumberFrom, ih (k + 1)]

theorem renumberFrom_map_triple (l : List PageInfo) :
    ∀ k, (renumberFrom k l).map (fun p => (p.filepath, p.size, p.timestamp)) =
      l.map (fun p => (p.filepath, p.size, p.timestamp)) := by
  induction l with
  | nil => intro k; rfl
  | cons p ps ih => intro k; simp [renumberFrom, ih (k + 1)]

theorem renumberFrom_mem {x : PageInfo} {l : List PageInfo} :
    ∀ {k}, x ∈ renumberFrom k l →
      ∃ y ∈ l, x.id = y.id ∧ x.filepath = y.filepath ∧
        x.timestamp = y.timestamp ∧ x.size = y.size := by
  induction l with
  | nil => intro k hx; simp [renumberFrom] at hx
  | cons p ps ih =>
    intro k hx
    rcases List.mem_cons.mp hx with rfl | hx'
    · exact ⟨p, List.mem_cons_self p ps, rfl, rfl, rfl, rfl⟩
    · rcases ih hx' with ⟨y, hy, h⟩
      exact ⟨y, List.mem_cons_of_mem p hy, h⟩

theorem renumberFrom_pairwise_ts {R : Int → Int → Prop} (l : List PageInfo)
    (h : List.Pairwise (fun a b => R a.timestamp b.timestamp) l) :
    ∀ k, List.Pairwise (fun a b => R a.timestamp b.timestamp)
      (renumberFrom k l) := by
  induction l with
  | nil => intro k; simp [renumberFrom]
  | cons p ps ih =>
    intro k
    rcases List.pairwise_cons.mp h with ⟨hp, ht⟩
    refine List.pairwise_cons.mpr ⟨?_, ih ht (k + 1)⟩
    intro x hx
    rcases renumberFrom_mem hx with ⟨y, hy, -, -, hts, -⟩
    rw [hts]
    exact hp y hy

theorem buildPages_map_triple (files : List FileEntry) :
    ∀ n0, (buildPages n0 files).map
        (fun p => (p.filepath, p.size, p.timestamp)) =
      (files.filter (fun f => f.size != 0)).map
        (fun f => (f.name, f.size, f.mtime)) := by
  induction files with
  | nil => intro n0; rfl
  | cons f rest ih =>
    intro n0
    by_cases h : f.size = 0
    · simp [buildPages, h, ih n0]
    · simp [buildPages, h, ih (n0 + 1)]

theorem buildPages_map_id (files : List FileEntry) :
    ∀ n0, (buildPages n0 files).map (fun p => p.id) =
      (List.range' n0 (files.filter (fun f => f.size != 0)).length).map
        genId := by
  induction files with
  | nil => intro n0; rfl
  | cons f rest ih =>
    intro n0
    by_cases h : f.size = 0
    · simp [buildPages, h, ih n0]
    · simp [buildPages, h, ih (n0 + 1), List.range'_succ]

theorem buildPages_mem (files : List FileEntry) :
    ∀ n0, ∀ p ∈ buildPages n0 files,
      ∃ f ∈ files, f.size ≠ 0 ∧ p.filepath = f.name := by
  induction files with
  | nil => intro n0 p hp; simp [buildPages] at hp
  | cons f rest ih =>
    intro n0 p hp
    by_cases h : f.size = 0
    · rw [buildPages, if_pos (by simp [h])] at hp
      rcases ih n0 p hp with ⟨g, hg, hgr⟩
      exact ⟨g, List.mem_cons_of_mem f hg, hgr⟩
    · rw [buildPages, if_neg (by simp [h])] at hp
      rcases List.mem_cons.mp hp with rfl | hp'
      · exact ⟨f, List.mem_cons_self f rest, h, rfl⟩
      · rcases ih (n0 + 1) p hp' with ⟨g, hg, hgr⟩
        exact ⟨g, List.mem_cons_of_mem f hg, hgr⟩

theorem filter_usable (dir : List FileEntry) :
    (dir.filter (fun f => isScanArtifact f.name)).filter
      (fun f => f.size != 0) = dir.filter usableFile := by
  induction dir with
  | nil => rfl
  | cons f rest ih =>
    by_cases ha : isScanArtifact f.name
    · by_cases hz : f.size = 0
      · simp [List.filter_cons, ha, hz, usableFile, ih]
      · simp [List.filter_cons, ha, hz, usableFile, ih]
    · simp [List.filter_cons, ha, usableFile, ih]

theorem find?_append_none {α : Type} (p : α → Bool) (l1 l2 : List α)
    (h : l1.find? p = none) : (l1 ++ l2).find? p = l2.find? p := by
  induction l1 with
  | nil => rfl
  | cons a t ih =>
    rcases ha : p a with _ | _
    · rw [List.find?_cons_of_neg _ (by simp [ha])] at h
      rw [List.cons_append, List.find?_cons_of_neg _ (by simp [ha])]
      exact ih h
    · rw [List.find?_cons_of_pos _ ha] at h
      exact absurd h (by simp)

theorem find?_mapSet (m : List (String × DocumentSession)) (k : String)
    (v : DocumentSession) (h : m.any (fun p => p.1 == k) = true) :
    (m.map (fun p => if p.1 == k then (k, v) else p)).find?
      (fun p => p.1 == k) = some (k, v) := by
  induction m with
  | nil => simp at h
  | cons a t ih =>
    by_cases ha : a.1 == k
    · rw [List.map_cons, if_pos ha]
      exact List.find?_cons_of_pos _ (by simp)
    · have h' : t.any (fun p => p.1 == k) = true := by
        rcases List.any_eq_true.mp h with ⟨x, hx, hxk⟩
        rcases List.mem_cons.mp hx with rfl | hx'
        · exact absurd hxk (by simp [ha])
        · exact List.any_eq_true.mpr ⟨x, hx', hxk⟩
      rw [List.map_cons, if_neg ha]
      rw [List.find?_cons_of_neg _ (by simpa using ha)]
      exact ih h'

theorem mapGet_mapSet_self (m : List (String × DocumentSession))
    (k : String) (v : DocumentSession) :
    mapGet (mapSet m k v) k = some v := by
  unfold mapSet
  by_cases h : m.any (fun p => p.1 == k)
  · rw [if_pos h]
    unfold mapGet
    rw [find?_mapSet m k v h]
    rfl
  · rw [if_neg h]
    unfold mapGet
    have hnone : m.find? (fun p => p.1 == k) = none := by
      rw [List.find?_eq_none]
      intro x hx hxk
      exact h (List.any_eq_true.mpr ⟨x, hx, hxk⟩)
    rw [find?_append_none _ m _ hnone]
    simp [List.find?]

theorem findIdx?_of_exists {α : Type} (p : α → Bool) (l : List α)
    (h : ∃ x ∈ l, p x = true) : ∃ i, l.findIdx? p = some i := by
  rcases hf : l.findIdx? p with _ | i
  · rcases h with ⟨x, hx, hpx⟩
    rw [List.findIdx?_eq_none_iff] at hf
    rw [hf x hx] at hpx
    exact absurd hpx (by simp)
  · exact ⟨i, rfl⟩

theorem findIdx?_get {α : Type} (p : α → Bool) (l : List α) (i : Nat)
    (h : l.findIdx? p = some i) : ∃ x, l[i]? = some x ∧ p x = true := by
  rcases List.findIdx?_eq_some_iff_getElem.mp h with ⟨hlt, hp, -⟩
  exact ⟨l[i], by simp [List.getElem?_eq_getElem hlt], hp⟩

theorem lastIdxAux_shift (pid : String) (l : List PageInfo) :
    ∀ i, lastIdxAux pid l i = (lastIdxAux pid l 0).map (fun j => j + i) := by
  induction l with
  | nil => intro i; rfl
  | cons p ps ih =>
    intro i
    show (match lastIdxAux pid ps (i + 1) with
      | some j => some j
      | none => if p.id == pid then some i else none) =
      ((match lastIdxAux pid ps (0 + 1) with
        | some j => some j
        | none => if p.id == pid then some 0 else none).map (fun j => j + i))
    rcases h0 : lastIdxAux pid ps 0 with _ | j
    · rw [ih (i + 1), ih (0 + 1), h0]
      by_cases hp : p.id == pid
      · simp [hp]
      · simp [hp]
    · rw [ih (i + 1), ih (0 + 1), h0]
      show some (j + (i + 1)) = some (j + (0 + 1) + i)
      exact congrArg some (by omega)

theorem lastIdxAux_none (pid : String) (l : List PageInfo)
    (h : ∀ p ∈ l, (p.id == pid) = false) :
    ∀ i, lastIdxAux pid l i = none := by
  induction l with
  | nil => intro i; rfl
  | cons p ps ih =>
    intro i
    show (match lastIdxAux pid ps (i + 1) with
      | some j => some j
      | none => if p.id == pid then some i else none) = none
    rw [ih (fun q hq => h q (List.mem_cons_of_mem p hq)) (i + 1)]
    simp [h p (List.mem_cons_self p ps)]

theorem lastIdxAux_nodup (l : List PageInfo)
    (hnd : (l.map (fun p => p.id)).Nodup) :
    ∀ i p, l[i]? = some p → lastIdxAux p.id l 0 = some i := by
  induction l with
  | nil => intro i p h; simp at h
  | cons q qs ih =>
    have hnd' : q.id ∉ qs.map (fun p => p.id) ∧
        (qs.map (fun p => p.id)).Nodup := by
      rw [List.map_cons] at hnd
      exact List.nodup_cons.mp hnd
    intro i p h
    rcases i with _ | j
    · simp only [List.getElem?_cons_zero, Option.some.injEq] at h
      subst h
      show (match lastIdxAux q.id qs (0 + 1) with
        | some j => some j
        | none => if q.id == q.id then some 0 else none) = some 0
      have hnone : lastIdxAux q.id qs (0 + 1) = none := by
        refine lastIdxAux_none q.id qs ?_ (0 + 1)
        intro r hr
        have hne : r.id ≠ q.id := by
          intro he
          exact hnd'.1 (he ▸ List.mem_map_of_mem (fun p => p.id) hr)
        simpa using hne
      rw [hnone]
      simp
    · simp only [List.getElem?_cons_succ] at h
      have hj := ih hnd'.2 j p h
      show (match lastIdxAux p.id qs (0 + 1) with
        | some j => some j
        | none => if q.id == p.id then some 0 else none) = some (j + 1)
      rw [lastIdxAux_shift p.id qs (0 + 1), hj]
      rfl

theorem renumberFrom_getElem? (l : List PageInfo) :
    ∀ k i, (renumberFrom k l)[i]? =
      (l[i]?).map (fun (p : PageInfo) => { p with pageNumber := k + i }) := by
  induction l with
  | nil => intro k i; simp [renumberFrom]
  | cons p ps ih =>
    intro k i
    rcases i with _ | j
    · simp [renumberFrom]
    · have hr : renumberFrom k (p :: ps) =
        { p with pageNumber := k } :: renumberFrom (k + 1) ps := rfl
      rw [hr, List.getElem?_cons_succ, List.getElem?_cons_succ, ih (k + 1) j,
        (by omega : k + 1 + j = k + (j + 1))]

theorem aliasRenumber_eq_renumberFrom (l : List PageInfo)
    (hnd : (l.map (fun p => p.id)).Nodup) :
    aliasRenumber l = renumberFrom 1 l := by
  apply List.ext_getElem?
  intro i
  rw [renumberFrom_getElem? l 1 i]
  unfold aliasRenumber
  rw [List.getElem?_map]
  rcases h : l[i]? with _ | p
  · rfl
  · simp only [Option.map_some', Option.some.injEq]
    rw [lastIdxAux_nodup l hnd i p h]
    simp only [Option.getD_some]
    congr 1
    omega

theorem collectReorder_ids (pages : List PageInfo) :
    ∀ pageIds picked, collectReorder pages pageIds = .ok picked →
      picked.map (fun p => p.id) = pageIds := by
  intro pageIds
  induction pageIds with
  | nil =>
    intro picked h
    simp only [collectReorder] at h
    injection h with h
    subst h
    rfl
  | cons pid rest ih =>
    intro picked h
    simp only [collectReorder] at h
    rcases hf : pages.find? (fun p => p.id == pid) with _ | p
    · rw [hf] at h; exact absurd h (by simp)
    · rw [hf] at h
      rcases hr : collectReorder pages rest with e | l
      · rw [hr] at h; exact absurd h (by simp [Except.map])
      · rw [hr] at h
        simp only [Except.map] at h
        injection h with h
        subst h
        have hpid : p.id = pid := by
          have := List.find?_some hf
          simpa using this
        simp only [List.map_cons, hpid, ih l hr]

theorem collectReorder_error_of_unknown (pages : List PageInfo) :
    ∀ pageIds, (∃ pid ∈ pageIds,
        pages.find? (fun p => p.id == pid) = none) →
      ∃ e, collectReorder pages pageIds = .error e := by
  intro pageIds
  induction pageIds with
  | nil => rintro ⟨pid, hpid, -⟩; simp at hpid
  | cons q rest ih =>
    rintro ⟨pid, hpid, hnone⟩
    simp only [collectReorder]
    rcases hf : pages.find? (fun p => p.id == q) with _ | p
    · exact ⟨q, by rw [hf]⟩
    · rcases List.mem_cons.mp hpid with rfl | hpid'
      · rw [hf] at hnone
        exact absurd hnone (by simp)
      · rcases ih ⟨pid, hpid', hnone⟩ with ⟨e, he⟩
        refine ⟨e, ?_⟩
        rw [hf, he]
        rfl

theorem filter_usable_dir1 (dir : List FileEntry) :
    ((dir.filter (fun f => !(isScanArtifact f.name && f.size == 0))).filter
      usableFile) = dir.filter usableFile := by
  rw [List.filter_filter]
  apply List.filter_congr
  intro f _
  unfold usableFile
  by_cases ha : isScanArtifact f.name <;> by_cases hz : f.size = 0 <;>
    simp [ha, hz]

theorem buildPages_length (files : List FileEntry) (n0 : Nat) :
    (buildPages n0 files).length =
      (files.filter (fun f => f.size != 0)).length := by
  have h := congrArg List.length (buildPages_map_triple files n0)
  simpa using h

/-- The session object `loadSessions` installs when at least one
usable scan file exists. -/
def rebuiltDefault (st : DSMState) (dir : List FileEntry) :
    DocumentSession :=
  let pages := renumberFrom 1 (sortByMtime
    (buildPages st.nextId (dir.filter (fun f => isScanArtifact f.name))))
  { id := "default", name := "Current Document", pages := pages,
    created := ((pages.head?).map (fun p => p.timestamp)).getD 0,
    modified := ((pages.getLast?).map (fun p => p.timestamp)).getD 0 }

theorem loadSessions_usable (st : DSMState) (dir : List FileEntry)
    (hus : dir.filter usableFile ≠ []) :
    loadSessions st dir =
      ({ sessions := mapSet st.sessions "default" (rebuiltDefault st dir),
         nextId := st.nextId + (dir.filter usableFile).length },
       dir.filter (fun f => !(isScanArtifact f.name && f.size == 0))) := by
  have hlen : (buildPages st.nextId
      (dir.filter (fun f => isScanArtifact f.name))).length =
      (dir.filter usableFile).length := by
    rw [buildPages_length]
    rw [congrArg List.length (filter_usable dir)]
  have hslen : (sortByKey (fun (p : PageInfo) => p.timestamp)
      (buildPages st.nextId
        (dir.filter (fun f => isScanArtifact f.name)))).length =
      (dir.filter usableFile).length :=
    ((sortByKey_perm (fun (p : PageInfo) => p.timestamp)
      (buildPages st.nextId
        (dir.filter (fun f => isScanArtifact f.name)))).length_eq).trans hlen
  have hne : (sortByKey (fun (p : PageInfo) => p.timestamp)
      (buildPages st.nextId
        (dir.filter (fun f => isScanArtifact f.name)))).isEmpty = false := by
    rcases hc : sortByKey (fun (p : PageInfo) => p.timestamp)
        (buildPages st.nextId
          (dir.filter (fun f => isScanArtifact f.name))) with _ | ⟨p, ps⟩
    · rw [hc] at hslen
      exact absurd (List.length_eq_zero.mp hslen.symm) hus
    · rfl
  have hused : ((dir.filter (fun f => isScanArtifact f.name)).filter
      (fun f => f.size != 0)).length = (dir.filter usableFile).length := by
    rw [congrArg List.length (filter_usable dir)]
  unfold loadSessions sortByMtime
  simp only [hne, Bool.false_eq_true, if_false, hused]
  rfl

theorem loadSessions_no_usable (st : DSMState) (dir : List FileEntry)
    (hus : dir.filter usableFile = []) :
    loadSessions st dir =
      (st, dir.filter (fun f => !(isScanArtifact f.name && f.size == 0))) := by
  have hlen : (buildPages st.nextId
      (dir.filter (fun f => isScanArtifact f.name))).length = 0 := by
    rw [buildPages_length]
    rw [congrArg List.length (filter_usable dir), hus]
    rfl
  have hnil : sortByKey (fun (p : PageInfo) => p.timestamp)
      (buildPages st.nextId
        (dir.filter (fun f => isScanArtifact f.name))) = [] := by
    have h2 := (sortByKey_perm (fun (p : PageInfo) => p.timestamp)
      (buildPages st.nextId
        (dir.filter (fun f => isScanArtifact f.name)))).length_eq
    rw [hlen] at h2
    exact List.length_eq_zero.mp h2
  have hused : ((dir.filter (fun f => isScanArtifact f.name)).filter
      (fun f => f.size != 0)).length = 0 := by
    rw [congrArg List.length (filter_usable dir), hus]
    rfl
  unfold loadSessions sortByMtime
  simp only [hnil, List.isEmpty_nil, if_true, hused]
  rfl

theorem rebuiltDefault_pages (st : DSMState) (dir : List FileEntry) :
    List.Perm ((rebuiltDefault st dir).pages.map
        (fun p => (p.filepath, p.size, p.timestamp)))
      ((dir.filter usableFile).map (fun f => (f.name, f.size, f.mtime))) ∧
    List.Pairwise (fun a b => a.timestamp ≤ b.timestamp)
      (rebuiltDefault st dir).pages ∧
    contigPages (rebuiltDefault st dir).pages = true ∧
    (∀ p ∈ (rebuiltDefault st dir).pages, ∃ k, p.id = genId k ∧
        st.nextId ≤ k ∧ k < st.nextId + (dir.filter usableFile).length) ∧
    ((rebuiltDefault st dir).pages.map (fun p => p.id)).Nodup ∧
    (∀ p ∈ (rebuiltDefault st dir).pages,
        strStartsWith p.filepath "scan-" = true) := by
  have hpages : (rebuiltDefault st dir).pages =
      renumberFrom 1 (sortByKey (fun (p : PageInfo) => p.timestamp)
        (buildPages st.nextId
          (dir.filter (fun f => isScanArtifact f.name)))) := rfl
  have hsp := @sortByKey_perm PageInfo (fun p => p.timestamp)
    (buildPages st.nextId (dir.filter (fun f => isScanArtifact f.name)))
  refine ⟨?_, ?_, ?_, ?_, ?_, ?_⟩
  · rw [hpages, renumberFrom_map_triple]
    have he : (buildPages st.nextId
        (dir.filter (fun f => isScanArtifact f.name))).map
          (fun p => (p.filepath, p.size, p.timestamp)) =
        (dir.filter usableFile).map (fun f => (f.name, f.size, f.mtime)) := by
      rw [buildPages_map_triple, filter_usable dir]
    exact he ▸ (hsp.map (fun p => (p.filepath, p.size, p.timestamp)))
  · rw [hpages]
    exact renumberFrom_pairwise_ts _
      (sortByKey_pairwise (fun (p : PageInfo) => p.timestamp) _) 1
  · rw [hpages]
    exact contigFrom_renumberFrom _ 1
  · intro p hp
    rw [hpages] at hp
    rcases renumberFrom_mem hp with ⟨y, hy, hid, -, -, -⟩
    have hy0 := hsp.subset hy
    have hidmem : y.id ∈ (buildPages st.nextId
        (dir.filter (fun f => isScanArtifact f.name))).map
          (fun p => p.id) := List.mem_map_of_mem _ hy0
    rw [buildPages_map_id] at hidmem
    rcases List.mem_map.mp hidmem with ⟨k, hk, hkid⟩
    rcases List.mem_range'.mp hk with ⟨i, hi, hkeq⟩
    have hlen2 : ((dir.filter (fun f => isScanArtifact f.name)).filter
        (fun f => f.size != 0)).length = (dir.filter usableFile).length :=
      congrArg List.length (filter_usable dir)
    exact ⟨k, by rw [hid, ← hkid], by omega, by omega⟩
  · rw [hpages, renumberFrom_map_id]
    have h0 : ((buildPages st.nextId
        (dir.filter (fun f => isScanArtifact f.name))).map
          (fun p => p.id)).Nodup := by
      rw [buildPages_map_id]
      exact (List.nodup_range' _ _).map (fun a b h => genId_inj h)
    exact h0.perm (hsp.map (fun p => p.id)).symm
  · intro p hp
    rw [hpages] at hp
    rcases renumberFrom_mem hp with ⟨y, hy, -, hfp, -, -⟩
    have hy0 := hsp.subset hy
    rcases buildPages_mem (dir.filter (fun f => isScanArtifact f.name))
      st.nextId y hy0 with ⟨f, hf, -, hname⟩
    have hfa := (List.mem_filter.mp hf).2
    unfold isScanArtifact at hfa
    rw [hfp, hname]
    exact (Bool.and_eq_true .. |>.mp hfa).1

theorem mem_values_mapSet (m : List (String × DocumentSession))
    (k : String) (v : DocumentSession) :
    v ∈ (mapSet m k v).map (fun p => p.2) := by
  unfold mapSet
  by_cases h : m.any (fun p => p.1 == k)
  · rw [if_pos h]
    rcases List.any_eq_true.mp h with ⟨x, hx, hxk⟩
    refine List.mem_map.mpr ⟨(k, v), ?_, rfl⟩
    refine List.mem_map.mpr ⟨x, hx, ?_⟩
    simp [hxk]
  · rw [if_neg h]
    refine List.mem_map.mpr ⟨(k, v), ?_, rfl⟩
    exact List.mem_append.mpr (Or.inr (List.mem_cons_self _ _))

/-- A stale manager state: the in-memory default session records one
page whose file no longer exists.  Reachable by running `getSession`
once against a directory holding `scan-ghost.pdf` and then deleting
that file externally. -/
def c2StaleState : DSMState :=
  { sessions := [("default",
      { id := "default", name := "Current Document",
        pages := [{ id := genId 0, filename := "scan-ghost.pdf",
                    filepath := "scan-ghost.pdf", timestamp := 5,
                    size := 100, pageNumber := 1 }],
        created := 5, modified := 5 })],
    nextId := 1 }

/-- C2 counterexample: with an empty scan directory (zero matching
files), `getSession("default")` does NOT rebuild to an empty page
list — `loadSessions` returns without touching the sessions map when
it finds no usable file, so the stale in-memory page survives.  The
claim demands that the returned page list equal exactly the (zero)
matching files in the directory. -/
theorem c2_counterexample :
    ([] : List FileEntry).filter usableFile = [] ∧
    ((getSession "default" c2StaleState []).1).map
        (fun s => s.pages.map (fun p => p.filepath)) =
      some ["scan-ghost.pdf"] := ⟨rfl, rfl⟩

/-- C2 as amended: whenever the directory holds at least one non-empty
matching file, `getSession("default")` (and `getSessions`) return a
default session rebuilt from the directory — page list exactly the
non-empty matching files, sorted by modification time, numbered
contiguously from 1; but when the directory holds zero matching files,
`loadSessions` leaves the sessions map untouched and whatever
in-memory state existed (including stale pages) is returned. -/
theorem c2_amended_rebuild (st : DSMState) (dir : List FileEntry) :
    (dir.filter usableFile ≠ [] →
      ∃ sess,
        (getSession "default" st dir).1 = some sess ∧
        sess ∈ (getSessions st dir).1 ∧
        List.Perm (sess.pages.map (fun p => (p.filepath, p.size, p.timestamp)))
          ((dir.filter usableFile).map (fun f => (f.name, f.size, f.mtime))) ∧
        List.Pairwise (fun a b => a.timestamp ≤ b.timestamp) sess.pages ∧
        contigPages sess.pages = true) ∧
    (dir.filter usableFile = [] →
      (getSession "default" st dir).1 = mapGet st.sessions "default") := by
  constructor
  · intro hus
    refine ⟨rebuiltDefault st dir, ?_, ?_, (rebuiltDefault_pages st dir).1,
      (rebuiltDefault_pages st dir).2.1, (rebuiltDefault_pages st dir).2.2.1⟩
    · show mapGet (loadSessions st dir).1.sessions "default" =
        some (rebuiltDefault st dir)
      rw [loadSessions_usable st dir hus]
      exact mapGet_mapSet_self st.sessions "default" (rebuiltDefault st dir)
    · show rebuiltDefault st dir ∈
        ((loadSessions st dir).1.sessions).map (fun p => p.2)
      rw [loadSessions_usable st dir hus]
      exact mem_values_mapSet st.sessions "default" (rebuiltDefault st dir)
  · intro hus
    show mapGet (loadSessions st dir).1.sessions "default" =
      mapGet st.sessions "default"
    rw [loadSessions_no_usable st dir hus]

/-- Concrete directory for the C2 witness: two usable scan files
listed newest-first, one zero-byte artifact, one unrelated file. -/
def c2WitnessDir : List FileEntry :=
  [ { name := "scan-b.pdf", size := 20, mtime := 10, pdfContent := some 1 },
    { name := "scan-a.pdf", size := 10, mtime := 5, pdfContent := some 1 },
    { name := "scan-z.pdf", size := 0, mtime := 7, pdfContent := some 1 },
    { name := "notes.txt", size := 9, mtime := 1, pdfContent := none } ]

/-- C2 witness: the amended theorem applied to `c2WitnessDir` from the
initial state (rebuild: mtime order a before b, numbered 1..2) and to
the stale-state/empty-directory pair (no rebuild). -/
theorem c2_amended_witness :
    (getSession "default" { sessions := [], nextId := 0 } c2WitnessDir).1 =
      some (rebuiltDefault { sessions := [], nextId := 0 } c2WitnessDir) ∧
    (rebuiltDefault { sessions := [], nextId := 0 } c2WitnessDir).pages.map
      (fun p => (p.filepath, p.pageNumber)) =
        [("scan-a.pdf", 1), ("scan-b.pdf", 2)] ∧
    List.Pairwise (fun a b => a.timestamp ≤ b.timestamp)
      (rebuiltDefault { sessions := [], nextId := 0 } c2WitnessDir).pages ∧
    (getSession "default" c2StaleState []).1 =
      mapGet c2StaleState.sessions "default" := by
  obtain ⟨sess, h1, -, -, h4, -⟩ :=
    (c2_amended_rebuild { sessions := [], nextId := 0 } c2WitnessDir).1
      (by decide)
  have hs : sess = rebuiltDefault { sessions := [], nextId := 0 }
      c2WitnessDir := by
    have h2 : (getSession "default" { sessions := [], nextId := 0 }
        c2WitnessDir).1 =
        some (rebuiltDefault { sessions := [], nextId := 0 } c2WitnessDir) :=
      rfl
    rw [h1] at h2
    exact (Option.some.injEq .. |>.mp h2)
  subst hs
  refine ⟨h1, by decide, h4, ?_⟩
  exact (c2_amended_rebuild c2StaleState []).2 (by decide)

theorem contig_alias_of_nodup (l : List PageInfo)
    (h : (l.map (fun p => p.id)).Nodup) :
    contigPages (aliasRenumber l) = true := by
  rw [aliasRenumber_eq_renumberFrom l h]
  exact contigFrom_renumberFrom l 1

/-- Directory of plain (non-artifact) files used by the C6
counterexample; their names do not match the scan pattern, so the
rebuild pass leaves the session map untouched and page ids stay
stable across calls. -/
def c6Dir : List FileEntry :=
  [ { name := "a.png", size := 3, mtime := 1, pdfContent := some 1 },
    { name := "b.png", size := 4, mtime := 2, pdfContent := some 1 } ]

/-- State after adding a.png then b.png to the default session from
the initial state. -/
def c6St2 : DSMState :=
  (addPageToSession "default" "b.png" 101
    (addPageToSession "default" "a.png" 100
      { sessions := [], nextId := 0 } c6Dir).2.1 c6Dir).2.1

/-- C6 counterexample: `reorderPages` with a duplicated page id
SUCCEEDS, but the resulting page numbering is [2, 2] — not the
contiguous sequence 1..N.  Under JavaScript reference semantics the
duplicated entry is the same `PageInfo` object, so the renumbering
`forEach` leaves both occurrences with the number of the last one
(and the session silently loses its other page). -/
theorem c6_counterexample :
    (reorderPages "default" [genId 0, genId 0] 102 c6St2 c6Dir).1.success =
      true ∧
    (mapGet (reorderPages "default" [genId 0, genId 0] 102 c6St2
        c6Dir).2.1.sessions "default").map
      (fun s => s.pages.map (fun p => p.pageNumber)) = some [2, 2] := by
  exact ⟨rfl, rfl⟩

/-- C6 as amended: after every successful `addPageToSession` and
`removePageFromSession`, and after every successful `reorderPages`
whose requested id list contains no duplicates, the affected session's
page numbers form the contiguous sequence 1..N — provided the session
state the operation starts from (after its filesystem rebuild) has
contiguously numbered pages with pairwise-distinct ids, as every
reachable state produced by the manager's own operations does.  A
reorder with a duplicated id succeeds but breaks the invariant (see
the counterexample). -/
theorem c6_amended_contiguous (st : DSMState) (dir : List FileEntry)
    (sid fp pidOrPath : String) (pageIds : List String) (now : Int)
    (hses : ∀ s, mapGet (loadSessions st dir).1.sessions sid = some s →
        contigPages s.pages = true ∧ (s.pages.map (fun p => p.id)).Nodup) :
    ((addPageToSession sid fp now st dir).1.success = true →
      ∃ s, mapGet (addPageToSession sid fp now st dir).2.1.sessions sid =
          some s ∧ contigPages s.pages = true) ∧
    ((removePageFromSession sid pidOrPath now st dir).1.success = true →
      ∃ s, mapGet
          (removePageFromSession sid pidOrPath now st dir).2.1.sessions sid =
          some s ∧ contigPages s.pages = true) ∧
    (pageIds.Nodup →
      (reorderPages sid pageIds now st dir).1.success = true →
      ∃ s, mapGet (reorderPages sid pageIds now st dir).2.1.sessions sid =
          some s ∧ contigPages s.pages = true) := by
  refine ⟨?_, ?_, ?_⟩
  · -- addPageToSession
    unfold addPageToSession getSession
    rcases hM : mapGet (loadSessions st dir).1.sessions sid with _ | s <;>
      simp only [hM] <;>
      rcases hF : findFile (loadSessions st dir).2 fp with _ | f <;>
        simp only [hF]
    · intro h; simp at h
    · by_cases hz : f.size == 0
      · simp only [hz, if_true]
        intro h; simp at h
      · simp only [hz, Bool.false_eq_true, if_false]
        intro _
        refine ⟨_, mapGet_mapSet_self _ _ _, ?_⟩
        exact contigFrom_append_one _ [] 1 rfl (by simp)
    · intro h; simp at h
    · by_cases hz : f.size == 0
      · simp only [hz, if_true]
        intro h; simp at h
      · simp only [hz, Bool.false_eq_true, if_false]
        intro _
        refine ⟨_, mapGet_mapSet_self _ _ _, ?_⟩
        have hc := (hses s hM).1
        exact contigFrom_append_one _ s.pages 1 hc (by simp [Nat.add_comm])
  · -- removePageFromSession
    unfold removePageFromSession getSession
    rcases hM : mapGet (loadSessions st dir).1.sessions sid with _ | s <;>
      simp only [hM]
    · intro h; simp at h
    · rcases hI : (match s.pages.findIdx?
          (fun (p : PageInfo) => p.id == pidOrPath) with
        | some i => some i
        | none => s.pages.findIdx?
            (fun (p : PageInfo) => p.filepath == pidOrPath))
        with _ | i <;> simp only [hI]
      · intro h; simp at h
      · rcases hP : s.pages[i]? with _ | page <;> simp only [hP]
        · intro h; simp at h
        · intro _
          refine ⟨_, mapGet_mapSet_self _ _ _, ?_⟩
          refine contig_alias_of_nodup _ ?_
          have hsub : List.Sublist
              ((s.pages.eraseIdx i).map (fun p => p.id))
              (s.pages.map (fun p => p.id)) :=
            (List.eraseIdx_sublist s.pages i).map (fun p => p.id)
          exact (hses s hM).2.sublist hsub
  · -- reorderPages
    intro hnd
    unfold reorderPages getSession
    rcases hM : mapGet (loadSessions st dir).1.sessions sid with _ | s <;>
      simp only [hM]
    · intro h; simp at h
    · rcases hC : collectReorder s.pages pageIds with e | picked <;>
        simp only [hC]
      · intro h; simp at h
      · intro _
        refine ⟨_, mapGet_mapSet_self _ _ _, ?_⟩
        refine contig_alias_of_nodup _ ?_
        rw [collectReorder_ids s.pages pageIds picked hC]
        exact hnd

/-- C6 witness: the amended theorem applied to concrete add, remove
and (duplicate-free) reorder calls on the state `c6St2` (two pages,
ids `genId 0` and `genId 1`). -/
theorem c6_amended_witness :
    ((addPageToSession "default" "a.png" 103 c6St2 c6Dir).1.success = true →
      ∃ s, mapGet (addPageToSession "default" "a.png" 103 c6St2
          c6Dir).2.1.sessions "default" = some s ∧
        contigPages s.pages = true) ∧
    ((removePageFromSession "default" (genId 0) 103 c6St2 c6Dir).1.success =
        true →
      ∃ s, mapGet (removePageFromSession "default" (genId 0) 103 c6St2
          c6Dir).2.1.sessions "default" = some s ∧
        contigPages s.pages = true) ∧
    ((reorderPages "default" [genId 1, genId 0] 103 c6St2 c6Dir).1.success =
        true →
      ∃ s, mapGet (reorderPages "default" [genId 1, genId 0] 103 c6St2
          c6Dir).2.1.sessions "default" = some s ∧
        contigPages s.pages = true) ∧
    (reorderPages "default" [genId 1, genId 0] 103 c6St2 c6Dir).1.success =
      true := by
  have h := c6_amended_contiguous c6St2 c6Dir "default" "a.png" (genId 0)
    [genId 1, genId 0] 103 (by decide)
  exact ⟨h.1, h.2.1, h.2.2 (by decide), by decide⟩

/-- Two scan artifacts for the C7 counterexample. -/
def c7DirAB : List FileEntry :=
  [ { name := "scan-a.pdf", size := 2, mtime := 1, pdfContent := some 1 },
    { name := "scan-b.pdf", size := 2, mtime := 2, pdfContent := some 1 } ]

/-- Manager state after one `getSession` against `c7DirAB`: the
default session holds both pages. -/
def c7St1 : DSMState :=
  (getSession "default" { sessions := [], nextId := 0 } c7DirAB).2.1

/-- C7 counterexample: a `reorderPages` call whose order list contains
only an unknown id fails — but does NOT leave the session's page
sequence unchanged: the call first rebuilds the default session from
the filesystem, and here `scan-b.pdf` was deleted externally between
the two calls, so the failed reorder shrinks the in-memory session
from two pages to one (membership changed). -/
theorem c7_counterexample :
    (mapGet c7St1.sessions "default").map
      (fun s => s.pages.map (fun p => p.filepath)) =
        some ["scan-a.pdf", "scan-b.pdf"] ∧
    (reorderPages "default" ["zzz"] 9 c7St1
      [{ name := "scan-a.pdf", size := 2, mtime := 1,
         pdfContent := some 1 }]).1.success = false ∧
    (mapGet (reorderPages "default" ["zzz"] 9 c7St1
        [{ name := "scan-a.pdf", size := 2, mtime := 1,
           pdfContent := some 1 }]).2.1.sessions "default").map
      (fun s => s.pages.map (fun p => p.filepath)) =
        some ["scan-a.pdf"] := by
  exact ⟨rfl, rfl, rfl⟩

/-- C7 as amended: a `reorderPages` call whose order list contains an
id matching no page of the (freshly rebuilt) session fails and applies
no mutation at all beyond the initial filesystem rebuild that every
session read performs: the resulting manager state and directory are
exactly those produced by that rebuild.  (The rebuild itself may
change the default session — fresh ids, mtime order, deleted files
dropped — so the claim's "exactly unchanged" relative to the pre-call
in-memory sequence does not hold.) -/
theorem c7_amended_atomic (st : DSMState) (dir : List FileEntry)
    (sid : String) (pageIds : List String) (now : Int)
    (hunknown : ∀ sess,
        mapGet (loadSessions st dir).1.sessions sid = some sess →
        ∃ pid ∈ pageIds,
          sess.pages.find? (fun p => p.id == pid) = none) :
    (reorderPages sid pageIds now st dir).1.success = false ∧
    (reorderPages sid pageIds now st dir).2.1 = (loadSessions st dir).1 ∧
    (reorderPages sid pageIds now st dir).2.2 = (loadSessions st dir).2 := by
  unfold reorderPages getSession
  rcases hM : mapGet (loadSessions st dir).1.sessions sid with _ | sess <;>
    simp only [hM]
  · refine ⟨?_, ?_, ?_⟩ <;> trivial
  · rcases collectReorder_error_of_unknown sess.pages pageIds
      (hunknown sess hM) with ⟨e, he⟩
    simp only [he]
    refine ⟨?_, ?_, ?_⟩ <;> trivial

/-- C7 witness: the amended theorem applied to a reorder with the
unknown id "zzz" against the freshly rebuilt two-page session. -/
theorem c7_amended_witness :
    (reorderPages "default" ["zzz"] 9 { sessions := [], nextId := 0 }
      c7DirAB).1.success = false ∧
    (reorderPages "default" ["zzz"] 9 { sessions := [], nextId := 0 }
      c7DirAB).2.1 =
      (loadSessions { sessions := [], nextId := 0 } c7DirAB).1 := by
  have h := c7_amended_atomic { sessions := [], nextId := 0 } c7DirAB
    "default" ["zzz"] 9 (by decide)
  exact ⟨h.1, h.2.1⟩

/-- C10: every rebuild of the default session assigns every page a
freshly generated id, so ids obtained from one `getSession` result are
stale for the operations that follow (each of which rebuilds first):
whenever the scan directory holds at least one usable scan file,
(a) `getSession` returns the rebuilt default session together with the
rebuilt manager state and cleaned directory, (b) every returned page
id was generated during that rebuild (at or above the previous
counter, below the new one), (c) `reorderPages` called with any id
from that result fails with `Page <id> not found`, (d)
`removePageFromSession` called with such an id fails with
`Page not found`, and (e) `removePageFromSession` called with a
returned page's filepath succeeds, through the filepath fallback. -/
theorem c10_fresh_ids (st : DSMState) (dir : List FileEntry) (now : Int)
    (hus : dir.filter usableFile ≠ []) :
    getSession "default" st dir =
      (some (rebuiltDefault st dir), (loadSessions st dir).1,
        (loadSessions st dir).2) ∧
    (∀ p ∈ (rebuiltDefault st dir).pages, ∃ k, p.id = genId k ∧
        st.nextId ≤ k ∧ k < (loadSessions st dir).1.nextId) ∧
    (∀ pid rest, pid ∈ (rebuiltDefault st dir).pages.map (fun p => p.id) →
        (reorderPages "default" (pid :: rest) now (loadSessions st dir).1
          (loadSessions st dir).2).1 =
        { success := false,
          error := some ("Page " ++ pid ++ " not found") }) ∧
    (∀ pid ∈ (rebuiltDefault st dir).pages.map (fun p => p.id),
        (removePageFromSession "default" pid now (loadSessions st dir).1
          (loadSessions st dir).2).1 =
        { success := false, error := some "Page not found" }) ∧
    (∀ fp ∈ (rebuiltDefault st dir).pages.map (fun p => p.filepath),
        (removePageFromSession "default" fp now (loadSessions st dir).1
          (loadSessions st dir).2).1.success = true) := by
  have hload := loadSessions_usable st dir hus
  have hspec := rebuiltDefault_pages st dir
  have hnext1 : (loadSessions st dir).1.nextId =
      st.nextId + (dir.filter usableFile).length := by rw [hload]
  have hdir1 : (loadSessions st dir).2 =
      dir.filter (fun f => !(isScanArtifact f.name && f.size == 0)) := by
    rw [hload]
  have hfu : (loadSessions st dir).2.filter usableFile =
      dir.filter usableFile := by
    rw [hdir1, filter_usable_dir1]
  have hus1 : (loadSessions st dir).2.filter usableFile ≠ [] := by
    rw [hfu]; exact hus
  have hload2 := loadSessions_usable (loadSessions st dir).1
    (loadSessions st dir).2 hus1
  have hspec2 := rebuiltDefault_pages (loadSessions st dir).1
    (loadSessions st dir).2
  have hget2 : mapGet (loadSessions (loadSessions st dir).1
      (loadSessions st dir).2).1.sessions "default" =
      some (rebuiltDefault (loadSessions st dir).1
        (loadSessions st dir).2) := by
    rw [hload2]
    exact mapGet_mapSet_self _ _ _
  have hstale : ∀ pid, pid ∈ (rebuiltDefault st dir).pages.map
      (fun p => p.id) →
      ∃ k, pid = genId k ∧ k < (loadSessions st dir).1.nextId := by
    intro pid hpid
    rcases List.mem_map.mp hpid with ⟨p, hp, rfl⟩
    rcases hspec.2.2.2.1 p hp with ⟨k, hk, -, hkub⟩
    exact ⟨k, hk, by rw [hnext1]; exact hkub⟩
  have hfresh2 : ∀ p2 ∈ (rebuiltDefault (loadSessions st dir).1
      (loadSessions st dir).2).pages,
      ∃ k2, p2.id = genId k2 ∧ (loadSessions st dir).1.nextId ≤ k2 := by
    intro p2 hp2
    rcases hspec2.2.2.2.1 p2 hp2 with ⟨k2, hk2, hlb, -⟩
    exact ⟨k2, hk2, hlb⟩
  have hidne : ∀ pid, pid ∈ (rebuiltDefault st dir).pages.map
      (fun p => p.id) →
      ∀ p2 ∈ (rebuiltDefault (loadSessions st dir).1
        (loadSessions st dir).2).pages, (p2.id == pid) = false := by
    intro pid hpid p2 hp2
    rcases hstale pid hpid with ⟨k, rfl, hkub⟩
    rcases hfresh2 p2 hp2 with ⟨k2, hk2, hlb⟩
    rw [hk2]
    refine beq_eq_false_iff_ne.mpr ?_
    intro h
    have := genId_inj h
    omega
  refine ⟨?_, ?_, ?_, ?_, ?_⟩
  · have hm : mapGet (loadSessions st dir).1.sessions "default" =
        some (rebuiltDefault st dir) := by
      rw [hload]
      exact mapGet_mapSet_self _ _ _
    show (mapGet (loadSessions st dir).1.sessions "default",
        (loadSessions st dir).1, (loadSessions st dir).2) = _
    rw [hm]
  · intro p hp
    rcases hspec.2.2.2.1 p hp with ⟨k, hk, hlb, hub⟩
    exact ⟨k, hk, hlb, by rw [hnext1]; exact hub⟩
  · intro pid rest hpid
    have hfind : (rebuiltDefault (loadSessions st dir).1
        (loadSessions st dir).2).pages.find?
          (fun p => p.id == pid) = none := by
      rw [List.find?_eq_none]
      intro x hx hxp
      rw [hidne pid hpid x hx] at hxp
      exact Bool.false_ne_true hxp
    unfold reorderPages getSession
    simp only [hget2, collectReorder, hfind]
  · intro pid hpid
    have hfid : (rebuiltDefault (loadSessions st dir).1
        (loadSessions st dir).2).pages.findIdx?
          (fun p => p.id == pid) = none := by
      rw [List.findIdx?_eq_none_iff]
      intro x hx
      exact hidne pid hpid x hx
    have hfpath : (rebuiltDefault (loadSessions st dir).1
        (loadSessions st dir).2).pages.findIdx?
          (fun p => p.filepath == pid) = none := by
      rw [List.findIdx?_eq_none_iff]
      intro x hx
      rcases hstale pid hpid with ⟨k, rfl, -⟩
      refine beq_eq_false_iff_ne.mpr ?_
      intro h
      exact genId_ne_scan (hspec2.2.2.2.2.2 x hx) h.symm
    unfold removePageFromSession getSession
    simp only [hget2, hfid, hfpath]
  · intro fp hfp
    rcases List.mem_map.mp hfp with ⟨p, hp, rfl⟩
    have hstart := hspec.2.2.2.2.2 p hp
    have hfid : (rebuiltDefault (loadSessions st dir).1
        (loadSessions st dir).2).pages.findIdx?
          (fun q => q.id == p.filepath) = none := by
      rw [List.findIdx?_eq_none_iff]
      intro x hx
      rcases hfresh2 x hx with ⟨k2, hk2, -⟩
      rw [hk2]
      exact beq_eq_false_iff_ne.mpr (genId_ne_scan hstart)
    have hmem1 : (p.filepath, p.size, p.timestamp) ∈
        (rebuiltDefault st dir).pages.map
          (fun q => (q.filepath, q.size, q.timestamp)) :=
      List.mem_map_of_mem _ hp
    have hmem2 := hspec.1.subset hmem1
    have hmem3 : (p.filepath, p.size, p.timestamp) ∈
        (rebuiltDefault (loadSessions st dir).1
          (loadSessions st dir).2).pages.map
            (fun q => (q.filepath, q.size, q.timestamp)) := by
      refine hspec2.1.mem_iff.mpr ?_
      rw [hfu]
      exact hmem2
    rcases List.mem_map.mp hmem3 with ⟨p2, hp2, htrip⟩
    have hfp2 : p2.filepath = p.filepath := congrArg (fun x => x.1) htrip
    rcases findIdx?_of_exists (fun q => q.filepath == p.filepath)
      (rebuiltDefault (loadSessions st dir).1
        (loadSessions st dir).2).pages
      ⟨p2, hp2, by show (p2.filepath == p.filepath) = true; rw [hfp2]; simp⟩
      with ⟨i, hi⟩
    rcases findIdx?_get _ _ i hi with ⟨page, hpage, -⟩
    unfold removePageFromSession getSession
    simp only [hget2, hfid, hi, hpage]

/-- C10 witness: the theorem applied to a concrete two-file directory:
the rebuilt ids are `genId 0`, `genId 1`; reordering or removing by
those ids on the next call fails, removing by filepath succeeds. -/
theorem c10_witness :
    ((rebuiltDefault { sessions := [], nextId := 0 } c7DirAB).pages.map
      (fun p => p.id)) = [genId 0, genId 1] ∧
    (reorderPages "default" [genId 0] 5
      (loadSessions { sessions := [], nextId := 0 } c7DirAB).1
      (loadSessions { sessions := [], nextId := 0 } c7DirAB).2).1 =
      { success := false,
        error := some ("Page " ++ genId 0 ++ " not found") } ∧
    (removePageFromSession "default" (genId 1) 5
      (loadSessions { sessions := [], nextId := 0 } c7DirAB).1
      (loadSessions { sessions := [], nextId := 0 } c7DirAB).2).1 =
      { success := false, error := some "Page not found" } ∧
    (removePageFromSession "default" "scan-a.pdf" 5
      (loadSessions { sessions := [], nextId := 0 } c7DirAB).1
      (loadSessions { sessions := [], nextId := 0 } c7DirAB).2).1.success =
      true := by
  have h := c10_fresh_ids { sessions := [], nextId := 0 } c7DirAB 5
    (by decide)
  refine ⟨by decide, ?_, ?_, ?_⟩
  · exact h.2.2.1 (genId 0) [] (by decide)
  · exact h.2.2.2.1 (genId 1) (by decide)
  · exact h.2.2.2.2 "scan-a.pdf" (by decide)

/-- C5 counterexample: a session whose only recorded page file no
longer exists on disk (stale in-memory session, empty directory).  The
structured (pdf-lib) merge path does NOT fail: every missing file is
skipped, the empty accumulating document is saved without error
(pdf-lib imposes no at-least-one-page requirement), and a combined
output file containing zero content pages is written.  The claim
demands an error and no output file. -/
theorem c5_counterexample :
    (combineSessionPages "default" "pdf" "T" true 50 c2StaleState []).1 =
      .ok "combined-default-T.pdf" ∧
    (combineSessionPages "default" "pdf" "T" true 50 c2StaleState []).2.2 =
      [{ name := "combined-default-T.pdf", size := 1, mtime := 50,
         pdfContent := some 0 }] := by
  exact ⟨rfl, rfl⟩

/-- C5 as amended: for a session none of whose recorded page files
exists, the external (TIFF/img2pdf) merge path fails with an error
before invoking the tool and leaves the directory unchanged (no
partial output); the structured (PDF/pdf-lib) merge path, however,
succeeds — it skips every missing file and writes a combined output
document with zero content pages.  The structured path has no
at-least-one-page requirement. -/
theorem c5_amended_combine (sid ts : String) (ok : Bool) (now : Int)
    (st : DSMState) (dir : List FileEntry) (sess : DocumentSession)
    (hs : mapGet (loadSessions st dir).1.sessions sid = some sess)
    (hne : sess.pages.isEmpty = false)
    (hmiss : ∀ p ∈ sess.pages,
        findFile (loadSessions st dir).2 p.filepath = none) :
    ((combineSessionPages sid "tiff" ts ok now st dir).1 =
        .error "Failed to combine TIFF pages into PDF: No valid TIFF files to combine" ∧
      (combineSessionPages sid "tiff" ts ok now st dir).2.2 =
        (loadSessions st dir).2) ∧
    ((combineSessionPages sid "pdf" ts ok now st dir).1 =
        .ok ("combined-" ++ sid ++ "-" ++ ts ++ ".pdf") ∧
      (combineSessionPages sid "pdf" ts ok now st dir).2.2 =
        (loadSessions st dir).2 ++
          [{ name := "combined-" ++ sid ++ "-" ++ ts ++ ".pdf",
             size := 0 + 1, mtime := now, pdfContent := some 0 }]) := by
  have hmiss2 : ∀ p ∈ sess.pages,
      (findFile (loadSessions st dir).2 p.filepath).isSome = false := by
    intro p hp
    rw [hmiss p hp]
    rfl
  have hinput : sess.pages.filter
      (fun p => (findFile (loadSessions st dir).2 p.filepath).isSome) =
      [] := by
    rw [List.filter_eq_nil]
    intro p hp
    rw [hmiss2 p hp]
    simp
  have hexist : sess.pages.filterMap
      (fun p => findFile (loadSessions st dir).2 p.filepath) = [] := by
    rw [List.filterMap_eq_nil]
    exact hmiss
  constructor
  · unfold combineSessionPages getSession
    simp only [hs, hne, Bool.false_eq_true, if_false]
    unfold combineTiffPages
    simp only [hinput]
    exact ⟨rfl, rfl⟩
  · unfold combineSessionPages getSession
    simp only [hs, hne, Bool.false_eq_true, if_false]
    unfold combinePdfPages
    simp only [hexist]
    exact ⟨rfl, rfl⟩

/-- C5 witness: the amended theorem applied to the stale one-page
session over an empty directory, for both configured formats. -/
theorem c5_amended_witness :
    (combineSessionPages "default" "tiff" "T" true 50 c2StaleState []).1 =
      .error "Failed to combine TIFF pages into PDF: No valid TIFF files to combine" ∧
    (combineSessionPages "default" "tiff" "T" true 50 c2StaleState []).2.2 =
      (loadSessions c2StaleState []).2 ∧
    (combineSessionPages "default" "pdf" "T" true 50 c2StaleState []).1 =
      .ok "combined-default-T.pdf" := by
  have h := c5_amended_combine "default" "T" true 50 c2StaleState []
    { id := "default", name := "Current Document",
      pages := [{ id := genId 0, filename := "scan-ghost.pdf",
                  filepath := "scan-ghost.pdf", timestamp := 5,
                  size := 100, pageNumber := 1 }],
      created := 5, modified := 5 }
    (by decide) (by decide) (by decide)
  exact ⟨h.1.1, h.1.2, h.2.1⟩
